import Mathlib

/-!
Verification of the PyBoM collector core (custom_components/ha_bom_australia/PyBoM):
a shallow embedding of helpers.py (geohash codec) and collector.py
(fetch-with-retry, cache, update cycle, forecast formatting) with proofs of
the specified properties.

Floating-point remark: every arithmetic operation performed by the geohash
codec (sums and halvings of interval endpoints whose values are dyadic
rationals of magnitude at most 360 and denominator at most 2^30 at the
precisions in use) is exact in IEEE-754 double precision, so the codec is
embedded faithfully over exact rationals.
-/

namespace BomAu

/-- The geohash base32 alphabet used by helpers.geohash_encode / geohash_decode. -/
def base32 : List Char := "0123456789bcdefghjkmnpqrstuvwxyz".data

/-- Bisection state shared by the encode and decode loops of the geohash codec:
the current latitude interval, the current longitude interval, and the parity
flag (even = the next bit refines longitude). -/
structure GHState where
  latLo : ℚ
  latHi : ℚ
  lonLo : ℚ
  lonHi : ℚ
  even  : Bool
deriving DecidableEq

/-- The initial state of both loops: lat interval (-90, 90), lon interval
(-180, 180), longitude bit first. -/
def ghInit : GHState := ⟨-90, 90, -180, 180, true⟩

/-- One bisection step of geohash_encode: on an even step the longitude
interval is bisected (the point strictly greater than the midpoint selects the
upper half and emits bit 1), on an odd step the latitude interval; the parity
flag flips. Returns the emitted bit and the refined state. -/
def ghStep (lat lon : ℚ) (s : GHState) : Bool × GHState :=
  if s.even then
    if lon > (s.lonLo + s.lonHi) / 2 then
      (true, { s with lonLo := (s.lonLo + s.lonHi) / 2, even := false })
    else (false, { s with lonHi := (s.lonLo + s.lonHi) / 2, even := false })
  else
    if lat > (s.latLo + s.latHi) / 2 then
      (true, { s with latLo := (s.latLo + s.latHi) / 2, even := true })
    else (false, { s with latHi := (s.latLo + s.latHi) / 2, even := true })

/-- The inner five iterations of the encode loop that assemble one base32
character: for each weight in bits = [16, 8, 4, 2, 1] one bisection step is
taken and, when the emitted bit is set, the weight is OR-ed into the
accumulated character value (Python: ch |= bits[bit]). -/
def ghCharAux (lat lon : ℚ) : List ℕ → GHState → ℕ → ℕ × GHState
  | [], s, ch => (ch, s)
  | w :: ws, s, ch =>
    let p := ghStep lat lon s
    ghCharAux lat lon ws p.2 (if p.1 then ch ||| w else ch)

/-- One character of the encode loop: five bisection steps starting from
ch = 0, returning the 5-bit character value and the state after the steps. -/
def ghCharNum (lat lon : ℚ) (s : GHState) : ℕ × GHState :=
  ghCharAux lat lon [16, 8, 4, 2, 1] s 0

/-- The outer encode loop (while len(geohash) < precision): emits one base32
character per five bits until the requested precision is reached. -/
def ghEncodeLoop (lat lon : ℚ) : ℕ → GHState → List Char
  | 0, _ => []
  | n + 1, s =>
    let p := ghCharNum lat lon s
    base32.getD p.1 '?' :: ghEncodeLoop lat lon n p.2

/-- helpers.geohash_encode: interleaved-bit geohash encoding of a coordinate
pair to a base32 string of the given precision. -/
def geohash_encode (latitude longitude : ℚ) (precision : ℕ) : String :=
  ⟨ghEncodeLoop latitude longitude precision ghInit⟩

/-- One bit of geohash_decode: the same interval refinement as ghStep, but
driven by the bit extracted from the character instead of a comparison. -/
def ghDecodeBit (b : Bool) (s : GHState) : GHState :=
  if s.even then
    if b then { s with lonLo := (s.lonLo + s.lonHi) / 2, even := false }
    else { s with lonHi := (s.lonLo + s.lonHi) / 2, even := false }
  else
    if b then { s with latLo := (s.latLo + s.latHi) / 2, even := true }
    else { s with latHi := (s.latLo + s.latHi) / 2, even := true }

/-- The inner decode loop over the five masks [16, 8, 4, 2, 1] for one
character of value idx (Python: if idx & mask, that is, the nonzero test). -/
def ghDecodeCharAux (idx : ℕ) : List ℕ → GHState → GHState
  | [], s => s
  | m :: ms, s => ghDecodeCharAux idx ms (ghDecodeBit (idx &&& m != 0) s)

/-- Decoding one character: its index in the base32 alphabet drives five
interval refinements. (geohash_decode is only applied to encoder output in
the verified properties, where the index lookup always succeeds.) -/
def ghDecodeChar (c : Char) (s : GHState) : GHState :=
  ghDecodeCharAux (base32.indexOf c) [16, 8, 4, 2, 1] s

/-- The outer decode loop over the characters of the geohash string. -/
def ghDecodeLoop : List Char → GHState → GHState
  | [], s => s
  | c :: cs, s => ghDecodeLoop cs (ghDecodeChar c s)

/-- helpers.geohash_decode: replays the bisections recorded in the string and
returns the center point (latitude, longitude) of the final bounding box. -/
def geohash_decode (g : String) : ℚ × ℚ :=
  let s := ghDecodeLoop g.data ghInit
  ((s.latLo + s.latHi) / 2, (s.lonLo + s.lonHi) / 2)

/-- The state after n characters of the encode loop. -/
def ghStates (lat lon : ℚ) : ℕ → GHState → GHState
  | 0, s => s
  | n + 1, s => ghStates lat lon n (ghCharNum lat lon s).2

/-- Both intervals of the state have positive width. -/
def GHWF (s : GHState) : Prop := s.latLo < s.latHi ∧ s.lonLo < s.lonHi

/-- The intervals of t lie inside the intervals of s. -/
def GHNested (t s : GHState) : Prop :=
  s.latLo ≤ t.latLo ∧ t.latHi ≤ s.latHi ∧ s.lonLo ≤ t.lonLo ∧ t.lonHi ≤ s.lonHi

/-- The character value assembled by the inner encode loop from its five bits,
most significant first. -/
def chAssemble (b0 b1 b2 b3 b4 : Bool) : ℕ :=
  let c0 := if b0 then 0 ||| 16 else 0
  let c1 := if b1 then c0 ||| 8 else c0
  let c2 := if b2 then c1 ||| 4 else c1
  let c3 := if b3 then c2 ||| 2 else c2
  if b4 then c3 ||| 1 else c3

/-! ### Fetch with retry (collector.Collector._fetch_with_retry)

The environment of one call is the outcome each HTTP attempt would have:
a 200 response whose body decodes to a payload, a non-200 status, a network
error or timeout (aiohttp.ClientError / asyncio.TimeoutError), or a 200
response whose JSON decoding raises an exception that the attempt loop does
not catch (json.JSONDecodeError is not an aiohttp.ClientError).
The result triple is the returned value (Except.error marks an exception
propagating to the caller), the cache entry for the endpoint key after the
call, and the list of back-off sleeps requested in order. -/

/-- Outcome of one HTTP attempt, the environment of _fetch_with_retry. -/
inductive FetchOutcome (α : Type) where
  | success (payload : α)
  | httpError
  | netError
  | decodeError
deriving DecidableEq

/-- One entry of Collector._cache: {"data": None, "timestamp": 0} initially. -/
structure CacheEntry (α : Type) where
  data : Option α
  timestamp : ℕ
deriving DecidableEq

/-- collector.MAX_RETRIES. -/
def MAX_RETRIES : ℕ := 3

/-- collector.RETRY_DELAY_BASE (seconds). -/
def RETRY_DELAY_BASE : ℕ := 2

/-- The attempt loop of _fetch_with_retry from a given attempt index, with the
number of remaining loop iterations as the structural fuel (the loop body runs
MAX_RETRIES times unless it returns early). now is the value time.time()
would store on a successful fetch. -/
def fetchFrom {α : Type} (o : ℕ → FetchOutcome α) (cache : CacheEntry α) (now : ℕ) :
    ℕ → ℕ → Except Unit (Option α) × CacheEntry α × List ℕ
  | _, 0 => (Except.ok none, cache, [])
  | attempt, rem + 1 =>
    match o attempt with
    | .success d => (Except.ok (some d), ⟨some d, now⟩, [])
    | .httpError => fetchFrom o cache now (attempt + 1) rem
    | .decodeError => (Except.error (), cache, [])
    | .netError =>
      if attempt < MAX_RETRIES - 1 then
        let r := fetchFrom o cache now (attempt + 1) rem
        (r.1, r.2.1, RETRY_DELAY_BASE ^ attempt :: r.2.2)
      else
        match cache.data with
        | some d => (Except.ok (some d), cache, [])
        | none => (Except.ok none, cache, [])

/-- Collector._fetch_with_retry for one endpoint key: three attempts starting
at attempt 0. -/
def fetchWithRetry {α : Type} (o : ℕ → FetchOutcome α) (cache : CacheEntry α)
    (now : ℕ) : Except Unit (Option α) × CacheEntry α × List ℕ :=
  fetchFrom o cache now 0 MAX_RETRIES

/-- An outcome on which the attempt loop falls through to the next attempt. -/
def isRetryable {α : Type} : FetchOutcome α → Bool
  | .httpError => true
  | .netError => true
  | _ => false

/-- Network-error or timeout outcome. -/
def isNetError {α : Type} : FetchOutcome α → Bool
  | .netError => true
  | _ => false

/-- Successful outcome. -/
def isSuccessOutcome {α : Type} : FetchOutcome α → Bool
  | .success _ => true
  | _ => false

/-- The back-off sleeps the spec prescribes for an attempt environment:
2 ^ i seconds for every executed attempt i that fails with a network error,
except after the final attempt; status errors wait nothing. Attempt i
executes when every earlier attempt fell through. -/
def sleepsSpec {α : Type} (o : ℕ → FetchOutcome α) : List ℕ :=
  ((List.range MAX_RETRIES).filter fun i =>
      ((List.range i).all fun j => isRetryable (o j)) && isNetError (o i)
        && decide (i < MAX_RETRIES - 1)).map
    fun i => RETRY_DELAY_BASE ^ i

/-- The concrete attempt environment of the C1 counterexample: every attempt
returns a non-200 status. -/
def oAllHttpErrors : ℕ → FetchOutcome ℕ := fun _ => FetchOutcome.httpError

/-- The concrete attempt environment of the C6 witness: two network errors,
then a 200 response decoding to payload 42. -/
def oNetNetSuccess : ℕ → FetchOutcome ℕ := fun i =>
  if i = 0 then FetchOutcome.netError
  else if i = 1 then FetchOutcome.netError
  else FetchOutcome.success 42

/-- The concrete attempt environment of the C1 witness: two non-200 statuses,
then a network error on the final attempt. -/
def oHttpHttpNet : ℕ → FetchOutcome ℕ := fun i =>
  if i = 0 then FetchOutcome.httpError
  else if i = 1 then FetchOutcome.httpError
  else FetchOutcome.netError

/-- Prepending one requested back-off sleep to a fetch result. -/
def prependSleep {α : Type} (w : ℕ)
    (r : Except Unit (Option α) × CacheEntry α × List ℕ) :
    Except Unit (Option α) × CacheEntry α × List ℕ :=
  (r.1, r.2.1, w :: r.2.2)

/-- Closed form of the final attempt (attempt index 2) of the loop. -/
def attempt2Result {α : Type} (o : ℕ → FetchOutcome α) (c : CacheEntry α) (n : ℕ) :
    Except Unit (Option α) × CacheEntry α × List ℕ :=
  match o 2 with
  | .success d => (Except.ok (some d), ⟨some d, n⟩, [])
  | .decodeError => (Except.error (), c, [])
  | .httpError => (Except.ok none, c, [])
  | .netError => (Except.ok c.data, c, [])

/-- Closed form of the loop from attempt index 1. -/
def attempt1Result {α : Type} (o : ℕ → FetchOutcome α) (c : CacheEntry α) (n : ℕ) :
    Except Unit (Option α) × CacheEntry α × List ℕ :=
  match o 1 with
  | .success d => (Except.ok (some d), ⟨some d, n⟩, [])
  | .decodeError => (Except.error (), c, [])
  | .httpError => attempt2Result o c n
  | .netError => prependSleep 2 (attempt2Result o c n)

/-- Closed form of the whole three-attempt loop. -/
def fetchResultSpec {α : Type} (o : ℕ → FetchOutcome α) (c : CacheEntry α) (n : ℕ) :
    Except Unit (Option α) × CacheEntry α × List ℕ :=
  match o 0 with
  | .success d => (Except.ok (some d), ⟨some d, n⟩, [])
  | .decodeError => (Except.error (), c, [])
  | .httpError => attempt1Result o c n
  | .netError => prependSleep 1 (attempt1Result o c n)

/-- The caller pattern applied to every fetch result in async_update:
if data: self.field = data. A missing result (None) and a falsy payload both
leave the stored field unchanged. tr is Python truthiness on payloads. -/
def assignIfTruthy {α : Type} (tr : α → Bool) (old : Option α) (fetched : Option α) :
    Option α :=
  match fetched with
  | none => old
  | some v => if tr v then some v else old

/-! ### JSON values and the Python dict operations used by the collector

Numbers are embedded as rationals (JSON integers and the IEEE doubles the
payloads can carry are all rational). Dicts are insertion-ordered
association lists with unique keys, as in Python. Uncaught Python exceptions
are modelled by an error kind string. -/

/-- A JSON payload value. -/
inductive JVal where
  | null
  | bool (b : Bool)
  | num (q : ℚ)
  | str (s : String)
  | arr (elems : List JVal)
  | obj (fields : List (String × JVal))

mutual

/-- Decidable equality of payload values (the derive handler does not support
this nested inductive). -/
def jvalDecEq : (a b : JVal) → Decidable (a = b)
  | .null, .null => .isTrue rfl
  | .bool a, .bool b =>
    if h : a = b then .isTrue (by rw [h]) else .isFalse (by simp [h])
  | .num a, .num b =>
    if h : a = b then .isTrue (by rw [h]) else .isFalse (by simp [h])
  | .str a, .str b =>
    if h : a = b then .isTrue (by rw [h]) else .isFalse (by simp [h])
  | .arr xs, .arr ys =>
    match jvalListDecEq xs ys with
    | .isTrue h => .isTrue (by rw [h])
    | .isFalse h => .isFalse (by simp [h])
  | .obj xs, .obj ys =>
    match jvalFieldsDecEq xs ys with
    | .isTrue h => .isTrue (by rw [h])
    | .isFalse h => .isFalse (by simp [h])
  | .null, .bool _ => .isFalse (fun h => JVal.noConfusion h)
  | .null, .num _ => .isFalse (fun h => JVal.noConfusion h)
  | .null, .str _ => .isFalse (fun h => JVal.noConfusion h)
  | .null, .arr _ => .isFalse (fun h => JVal.noConfusion h)
  | .null, .obj _ => .isFalse (fun h => JVal.noConfusion h)
  | .bool _, .null => .isFalse (fun h => JVal.noConfusion h)
  | .bool _, .num _ => .isFalse (fun h => JVal.noConfusion h)
  | .bool _, .str _ => .isFalse (fun h => JVal.noConfusion h)
  | .bool _, .arr _ => .isFalse (fun h => JVal.noConfusion h)
  | .bool _, .obj _ => .isFalse (fun h => JVal.noConfusion h)
  | .num _, .null => .isFalse (fun h => JVal.noConfusion h)
  | .num _, .bool _ => .isFalse (fun h => JVal.noConfusion h)
  | .num _, .str _ => .isFalse (fun h => JVal.noConfusion h)
  | .num _, .arr _ => .isFalse (fun h => JVal.noConfusion h)
  | .num _, .obj _ => .isFalse (fun h => JVal.noConfusion h)
  | .str _, .null => .isFalse (fun h => JVal.noConfusion h)
  | .str _, .bool _ => .isFalse (fun h => JVal.noConfusion h)
  | .str _, .num _ => .isFalse (fun h => JVal.noConfusion h)
  | .str _, .arr _ => .isFalse (fun h => JVal.noConfusion h)
  | .str _, .obj _ => .isFalse (fun h => JVal.noConfusion h)
  | .arr _, .null => .isFalse (fun h => JVal.noConfusion h)
  | .arr _, .bool _ => .isFalse (fun h => JVal.noConfusion h)
  | .arr _, .num _ => .isFalse (fun h => JVal.noConfusion h)
  | .arr _, .str _ => .isFalse (fun h => JVal.noConfusion h)
  | .arr _, .obj _ => .isFalse (fun h => JVal.noConfusion h)
  | .obj _, .null => .isFalse (fun h => JVal.noConfusion h)
  | .obj _, .bool _ => .isFalse (fun h => JVal.noConfusion h)
  | .obj _, .num _ => .isFalse (fun h => JVal.noConfusion h)
  | .obj _, .str _ => .isFalse (fun h => JVal.noConfusion h)
  | .obj _, .arr _ => .isFalse (fun h => JVal.noConfusion h)

/-- Decidable equality of payload lists. -/
def jvalListDecEq : (xs ys : List JVal) → Decidable (xs = ys)
  | [], [] => .isTrue rfl
  | [], _ :: _ => .isFalse (by simp)
  | _ :: _, [] => .isFalse (by simp)
  | x :: xs, y :: ys =>
    match jvalDecEq x y with
    | .isTrue h1 =>
      match jvalListDecEq xs ys with
      | .isTrue h2 => .isTrue (by rw [h1, h2])
      | .isFalse h2 => .isFalse (by simp [h2])
    | .isFalse h1 => .isFalse (by simp [h1])

/-- Decidable equality of field lists. -/
def jvalFieldsDecEq : (xs ys : List (String × JVal)) → Decidable (xs = ys)
  | [], [] => .isTrue rfl
  | [], _ :: _ => .isFalse (by simp)
  | _ :: _, [] => .isFalse (by simp)
  | (k1, v1) :: xs, (k2, v2) :: ys =>
    if hk : k1 = k2 then
      match jvalDecEq v1 v2 with
      | .isTrue h1 =>
        match jvalFieldsDecEq xs ys with
        | .isTrue h2 => .isTrue (by rw [hk, h1, h2])
        | .isFalse h2 => .isFalse (by simp [h2])
      | .isFalse h1 => .isFalse (by simp [h1])
    else .isFalse (by simp [hk])

end

instance : DecidableEq JVal := jvalDecEq

/-- Python truthiness of a payload value. -/
def jTruthy : JVal → Bool
  | .null => false
  | .bool b => b
  | .num q => q != 0
  | .str s => s != ""
  | .arr l => !l.isEmpty
  | .obj l => !l.isEmpty

/-- True exactly for None. -/
def isNullB : JVal → Bool
  | .null => true
  | _ => false

/-- Python numeric coercion in arithmetic: numbers and booleans are numeric,
everything else raises TypeError. -/
def toNum : JVal → Option ℚ
  | .num q => some q
  | .bool b => some (if b then 1 else 0)
  | _ => none

/-- Dict assignment d[k] = v: replaces the value in place when the key is
present, appends in insertion order otherwise. -/
def objSet : List (String × JVal) → String → JVal → List (String × JVal)
  | [], k, v => [(k, v)]
  | (k', v') :: fs, k, v =>
    if k' = k then (k', v) :: fs else (k', v') :: objSet fs k v

/-- Dict key removal (pop). -/
def objRemove : List (String × JVal) → String → List (String × JVal)
  | [], _ => []
  | (k', v') :: fs, k => if k' = k then fs else (k', v') :: objRemove fs k

/-- Python d[k] with a string key. -/
def jvIndexStr : JVal → String → Except String JVal
  | .obj fs, k =>
    match fs.lookup k with
    | some v => Except.ok v
    | none => Except.error "KeyError"
  | .arr _, _ => Except.error "TypeError"
  | .str _, _ => Except.error "TypeError"
  | _, _ => Except.error "TypeError"

/-- Python d[i] with an integer key: list and string indexing succeed in
range; a dict raises KeyError (its keys here are strings), anything else
TypeError. -/
def jvIndexNat : JVal → ℕ → Except String JVal
  | .arr l, i =>
    match l.get? i with
    | some v => Except.ok v
    | none => Except.error "IndexError"
  | .str s, i =>
    match s.data.get? i with
    | some c => Except.ok (.str (String.mk [c]))
    | none => Except.error "IndexError"
  | .obj _, _ => Except.error "KeyError"
  | _, _ => Except.error "TypeError"

/-- Python d.get(k) on a dict (None when absent); AttributeError otherwise. -/
def pyGet : JVal → String → Except String JVal
  | .obj fs, k => Except.ok ((fs.lookup k).getD .null)
  | _, _ => Except.error "AttributeError"

/-- Total d.get(k) used where the receiver is an already-checked dict. -/
def jvGetD : JVal → String → JVal
  | .obj fs, k => (fs.lookup k).getD .null
  | _, _ => .null

/-- Python d.pop(k, default): removes the key (when present) and returns the
value or the default. -/
def pyPopD : JVal → String → JVal → Except String (JVal × JVal)
  | .obj fs, k, dflt => Except.ok ((fs.lookup k).getD dflt, .obj (objRemove fs k))
  | _, _, _ => Except.error "AttributeError"

/-- Python membership test k in v: key test on dicts, element test on lists,
substring test on strings, TypeError otherwise. -/
def pyContains (k : String) : JVal → Except String Bool
  | .obj fs => Except.ok (fs.lookup k).isSome
  | .arr l => Except.ok (l.contains (.str k))
  | .str s => Except.ok (decide (k = "") || ((s.splitOn k).length != 1))
  | _ => Except.error "TypeError"

/-- Python len(v). -/
def pyLen : JVal → Except String ℕ
  | .obj fs => Except.ok fs.length
  | .arr l => Except.ok l.length
  | .str s => Except.ok s.length
  | _ => Except.error "TypeError"

/-- Assignment on an already-checked dict (total). -/
def jvSet (d : JVal) (k : String) (v : JVal) : JVal :=
  match d with
  | .obj fs => .obj (objSet fs k v)
  | _ => d

/-- Element assignment on an already-checked list (total). -/
def jvSetIdx (d : JVal) (i : ℕ) (v : JVal) : JVal :=
  match d with
  | .arr l => .arr (l.set i v)
  | _ => d

/-- Python str() as applied by f-string interpolation to the values the
formatters interpolate. None, booleans, strings and integers print as in
Python; the shortest-repr printing of non-integral floats and the repr of
containers are outside this embedding (the verified properties interpolate
integers). -/
def pyStr : JVal → String
  | .null => "None"
  | .bool b => if b then "True" else "False"
  | .str s => s
  | .num q => if q.den = 1 then toString q.num else toString q
  | .arr _ => "<list>"
  | .obj _ => "<dict>"

/-- Sequencing of in-place mutations: when an exception was raised the value
mutated so far is kept and later mutations are skipped. -/
def pseq (r : JVal × Option String) (f : JVal → JVal × Option String) :
    JVal × Option String :=
  match r with
  | (v, none) => f v
  | (v, some e) => (v, some e)

/-- One key of helpers.flatten_dict: dict[key] may raise; None is skipped; a
dict value is popped and spliced back as key_innerkey entries in order; a
non-dict non-None value raises AttributeError at .items() after the pop has
already removed the key. -/
def flattenKey (k : String) (d : JVal) : JVal × Option String :=
  match jvIndexStr d k with
  | .error e => (d, some e)
  | .ok .null => (d, none)
  | .ok (.obj inner) =>
    match d with
    | .obj fs =>
      (.obj (inner.foldl (fun acc p => objSet acc (k ++ "_" ++ p.1) p.2)
        (objRemove fs k)), none)
    | _ => (d, some "TypeError")
  | .ok _ =>
    match d with
    | .obj fs => (.obj (objRemove fs k), some "AttributeError")
    | _ => (d, some "TypeError")

/-- helpers.flatten_dict over its list of keys, with partial-mutation
semantics on an exception. -/
def flatten_dict (ks : List String) (d : JVal) : JVal × Option String :=
  ks.foldl (fun acc k => pseq acc (flattenKey k)) (d, none)

/-- flatten_dict applied to the nested dict d[outerKey] (mutating it in
place, the outer dict keeps referencing it). -/
def flattenInner (outerKey : String) (innerKeys : List String) (d : JVal) :
    JVal × Option String :=
  match jvIndexStr d outerKey with
  | .error e => (d, some e)
  | .ok inner =>
    let r := flatten_dict innerKeys inner
    (jvSet d outerKey r.1, r.2)

/-- The icon_descriptor override shared by the day-0 daily branch and every
hourly entry: at night sunny and mostly_sunny become clear; during the day
clear becomes sunny. -/
def iconOverride (isNight : Bool) (iconDesc : JVal) (d : JVal) : JVal :=
  if isNight && (iconDesc == JVal.str "sunny" || iconDesc == JVal.str "mostly_sunny") then
    jvSet d "icon_descriptor" (.str "clear")
  else if !isNight && iconDesc == JVal.str "clear" then
    jvSet d "icon_descriptor" (.str "sunny")
  else d

/-- d["mdi_icon"] = MAP_MDI_ICON[d["icon_descriptor"]]: either subscript can
raise KeyError. The table itself is defined in PyBoM/const.py, which is not
among the sources; it is a parameter of the formatters and the verified
properties hold for every table. -/
def mdiAssign (mdi : String → Option String) (d : JVal) : JVal × Option String :=
  match jvIndexStr d "icon_descriptor" with
  | .error e => (d, some e)
  | .ok (.str key) =>
    match mdi key with
    | some icon => (jvSet d "mdi_icon" (.str icon), none)
    | none => (d, some "KeyError")
  | .ok _ => (d, some "KeyError")

/-- The joining text of the daily rain range: the literal characters between
the interpolated braces of the f-string at collector.py line 165. The UTF-8
en dash was garbled there by a double encoding into the three characters
U+00E2, U+20AC, U+201C. -/
def dailyRainJoiner : String := "\u00E2\u20AC\u201C"

/-- The rain-amount block that ends the body of both entry formatters:
if rain_amount_max is None, overwrite it with rain_amount_min and set
rain_amount_range to that same value; otherwise set rain_amount_range to the
interpolation of min and max around the joiner. -/
def rainRangeBlock (joiner : String) (d : JVal) : JVal × Option String :=
  match jvIndexStr d "rain_amount_max" with
  | .error e => (d, some e)
  | .ok rmax =>
    if isNullB rmax then
      match jvIndexStr d "rain_amount_min" with
      | .error e => (d, some e)
      | .ok rmin =>
        (jvSet (jvSet d "rain_amount_max" rmin) "rain_amount_range" rmin, none)
    else
      match jvIndexStr d "rain_amount_min" with
      | .error e => (d, some e)
      | .ok rmin =>
        (jvSet d "rain_amount_range" (.str (pyStr rmin ++ joiner ++ pyStr rmax)), none)

/-- The day-0 now block of format_daily_forecast_data: pop "now" (default an
empty dict); when truthy, copy its four fields into the entry and read
is_night from it, else is_night is False. Returns the entry and the
truthiness of is_night. -/
def dayZeroNowBlock (d0 : JVal) : (JVal × Bool) × Option String :=
  match pyPopD d0 "now" (.obj []) with
  | .error e => ((d0, false), some e)
  | .ok (nowData, d1) =>
    if jTruthy nowData then
      match nowData with
      | .obj _ =>
        ((jvSet (jvSet (jvSet (jvSet d1 "now_label" (jvGetD nowData "now_label"))
            "temp_now" (jvGetD nowData "temp_now"))
            "later_label" (jvGetD nowData "later_label"))
            "temp_later" (jvGetD nowData "temp_later"),
          jTruthy (jvGetD nowData "is_night")), none)
      | _ => ((d1, false), some "AttributeError")
    else ((d1, false), none)

/-- The body of format_daily_forecast_data for one day entry. -/
def formatDailyEntry (mdi : String → Option String) (day : ℕ) (d0 : JVal) :
    JVal × Option String :=
  pseq (pseq (pseq (pseq (flattenInner "rain" ["amount"] d0)
    (flatten_dict ["rain", "uv", "astronomical"]))
    (fun d =>
      if day = 0 then
        match dayZeroNowBlock d with
        | (p, some e) => (p.1, some e)
        | ((d1, isN), none) =>
          match pyGet d1 "icon_descriptor" with
          | .error e => (d1, some e)
          | .ok iconDesc => (iconOverride isN iconDesc d1, none)
      else (d, none)))
    (mdiAssign mdi))
    (rainRangeBlock dailyRainJoiner)

/-- The body of format_hourly_forecast_data for one hourly entry. -/
def formatHourlyEntry (mdi : String → Option String) (d0 : JVal) :
    JVal × Option String :=
  match pyGet d0 "is_night" with
  | .error e => (d0, some e)
  | .ok nightv =>
    match pyGet d0 "icon_descriptor" with
    | .error e => (d0, some e)
    | .ok iconDesc =>
      pseq (pseq (pseq (mdiAssign mdi (iconOverride (jTruthy nightv) iconDesc d0))
        (flattenInner "rain" ["amount"]))
        (flatten_dict ["rain", "wind"]))
        (rainRangeBlock " to ")

/-- The entry loop of the two format methods: for each index, read the entry
out of payload["data"], format it, and write it back in place; an exception
keeps the mutations made so far and stops the loop. -/
def formatEntriesLoop (fmt : ℕ → JVal → JVal × Option String) :
    List ℕ → JVal → JVal × Option String
  | [], v => (v, none)
  | i :: is, v =>
    match jvIndexStr v "data" with
    | .error e => (v, some e)
    | .ok dataVal =>
      match jvIndexNat dataVal i with
      | .error e => (v, some e)
      | .ok d =>
        match fmt i d with
        | (d', none) => formatEntriesLoop fmt is (jvSet v "data" (jvSetIdx dataVal i d'))
        | (d', some e) => (jvSet v "data" (jvSetIdx dataVal i d'), some e)

/-- Collector.format_daily_forecast_data on the stored field: early return
when the field is falsy or has no "data" key, otherwise format every entry of
payload["data"] in place. -/
def format_daily_forecast_data (mdi : String → Option String) (field : Option JVal) :
    Option JVal × Option String :=
  match field with
  | none => (none, none)
  | some v =>
    if !jTruthy v then (some v, none)
    else
      match pyContains "data" v with
      | .error e => (some v, some e)
      | .ok false => (some v, none)
      | .ok true =>
        match jvIndexStr v "data" with
        | .error e => (some v, some e)
        | .ok dataVal =>
          match pyLen dataVal with
          | .error e => (some v, some e)
          | .ok days =>
            let r := formatEntriesLoop (formatDailyEntry mdi) (List.range days) v
            (some r.1, r.2)

/-- Collector.format_hourly_forecast_data on the stored field. -/
def format_hourly_forecast_data (mdi : String → Option String) (field : Option JVal) :
    Option JVal × Option String :=
  match field with
  | none => (none, none)
  | some v =>
    if !jTruthy v then (some v, none)
    else
      match pyContains "data" v with
      | .error e => (some v, some e)
      | .ok false => (some v, none)
      | .ok true =>
        match jvIndexStr v "data" with
        | .error e => (some v, some e)
        | .ok dataVal =>
          match pyLen dataVal with
          | .error e => (some v, some e)
          | .ok hours =>
            let r := formatEntriesLoop (fun _ d => formatHourlyEntry mdi d) (List.range hours) v
            (some r.1, r.2)

/-- One field of the day-0 temperature preservation block: when
new_today.get(f) is None and old_today.get(f) is not None (the right conjunct
is only evaluated when the left holds), copy old_today[f] into new_today. -/
def preserveField (f : String) (oldToday newToday : JVal) : Except String JVal :=
  match pyGet newToday f with
  | .error e => Except.error e
  | .ok nv =>
    if isNullB nv then
      match pyGet oldToday f with
      | .error e => Except.error e
      | .ok ov =>
        if !isNullB ov then
          match jvIndexStr oldToday f with
          | .error e => Except.error e
          | .ok ovv => Except.ok (jvSet newToday f ovv)
        else Except.ok newToday
    else Except.ok newToday

/-- The day-0 temperature preservation block of async_update (lines 265-289):
when the lazily evaluated condition chain (previous field truthy, "data" in
both, both lists non-empty) holds, preserve temp_min then temp_max of day 0.
On an exception the unassigned new payload is discarded by the caller. -/
def preserveToday (old : Option JVal) (newPayload : JVal) : JVal × Option String :=
  match old with
  | none => (newPayload, none)
  | some ov =>
    if !jTruthy ov then (newPayload, none)
    else
      match pyContains "data" ov with
      | .error e => (newPayload, some e)
      | .ok false => (newPayload, none)
      | .ok true =>
        match jvIndexStr ov "data" with
        | .error e => (newPayload, some e)
        | .ok odata =>
          match pyLen odata with
          | .error e => (newPayload, some e)
          | .ok olen =>
            if !decide (0 < olen) then (newPayload, none)
            else
              match pyContains "data" newPayload with
              | .error e => (newPayload, some e)
              | .ok false => (newPayload, none)
              | .ok true =>
                match jvIndexStr newPayload "data" with
                | .error e => (newPayload, some e)
                | .ok ndata =>
                  match pyLen ndata with
                  | .error e => (newPayload, some e)
                  | .ok nlen =>
                    if !decide (0 < nlen) then (newPayload, none)
                    else
                      match jvIndexNat odata 0 with
                      | .error e => (newPayload, some e)
                      | .ok oldToday =>
                        match jvIndexNat ndata 0 with
                        | .error e => (newPayload, some e)
                        | .ok newToday =>
                          match preserveField "temp_min" oldToday newToday with
                          | .error e => (newPayload, some e)
                          | .ok nt1 =>
                            match preserveField "temp_max" oldToday nt1 with
                            | .error e => (newPayload, some e)
                            | .ok nt2 =>
                              (jvSet newPayload "data" (jvSetIdx ndata 0 nt2), none)

/-- Python round(x, 1): round half to even at one decimal, over rationals. -/
def roundHalfEvenZ (q : ℚ) : ℤ :=
  if q - Int.floor q < 1 / 2 then Int.floor q
  else if q - Int.floor q > 1 / 2 then Int.floor q + 1
  else if Int.floor q % 2 = 0 then Int.floor q else Int.floor q + 1

/-- round(x, 1) over rationals. -/
def pyRound1 (q : ℚ) : ℚ := (roundHalfEvenZ (10 * q) : ℚ) / 10

/-- The observations post-processing of async_update (lines 220-258): flatten
wind and gust (or mark them unavailable when null), then store dew_point and
delta_t. The numeric dew-point function is a parameter because its value is
transcendental (math.log); dew_point_calc below is the verified real-valued
formula, and the cycle-level properties hold for every such function. Its
None result stands for the narrowly caught TypeError / ValueError /
ZeroDivisionError cases. -/
def obsProcess (dewFn : ℚ → ℚ → Option ℚ) (v : JVal) : JVal × Option String :=
  match jvIndexStr v "data" with
  | .error e => (v, some e)
  | .ok dd =>
    match jvIndexStr dd "wind" with
    | .error e => (v, some e)
    | .ok windv =>
      let r1 : JVal × Option String :=
        if !isNullB windv then flatten_dict ["wind"] dd
        else (jvSet (jvSet (jvSet dd "wind_direction" (.str "unavailable"))
          "wind_speed_kilometre" (.str "unavailable"))
          "wind_speed_knot" (.str "unavailable"), none)
      match r1 with
      | (dd1, some e) => (jvSet v "data" dd1, some e)
      | (dd1, none) =>
        match jvIndexStr dd1 "gust" with
        | .error e => (jvSet v "data" dd1, some e)
        | .ok gustv =>
          let r2 : JVal × Option String :=
            if !isNullB gustv then flatten_dict ["gust"] dd1
            else (jvSet (jvSet dd1 "gust_speed_kilometre" (.str "unavailable"))
              "gust_speed_knot" (.str "unavailable"), none)
          match r2 with
          | (dd2, some e) => (jvSet v "data" dd2, some e)
          | (dd2, none) =>
            let tempv := jvGetD dd2 "temp"
            let humv := jvGetD dd2 "humidity"
            let dewv : JVal :=
              if !isNullB tempv && !isNullB humv then
                match toNum tempv, toNum humv with
                | some t, some h =>
                  match dewFn t h with
                  | some q => .num q
                  | none => .null
                | _, _ => .null
              else .null
            let dd3 := jvSet dd2 "dew_point" dewv
            let tempv2 := jvGetD dd3 "temp"
            let dpv := jvGetD dd3 "dew_point"
            let deltav : JVal :=
              if !isNullB tempv2 && !isNullB dpv then
                match toNum tempv2, toNum dpv with
                | some t, some p => .num (pyRound1 (t - p))
                | _, _ => .null
              else .null
            (jvSet v "data" (jvSet dd3 "delta_t" deltav), none)

/-- The snapshot fields of the collector. -/
structure CollectorState where
  locations_data : Option JVal
  observations_data : Option JVal
  daily_forecasts_data : Option JVal
  hourly_forecasts_data : Option JVal
  warnings_data : Option JVal
deriving DecidableEq

/-- The environment of one async_update cycle: what each endpoint fetch
(_fetch_with_retry) returns, Except.error marking a propagating decode
exception (matching the first component of fetchWithRetry). -/
structure UpdateEnv where
  locations : Except Unit (Option JVal)
  observations : Except Unit (Option JVal)
  daily : Except Unit (Option JVal)
  hourly : Except Unit (Option JVal)
  warnings : Except Unit (Option JVal)

/-- Step sequencing of the cycle: once an exception is pending the remaining
steps are skipped. -/
def stepSeq (r : CollectorState × Option String)
    (f : CollectorState → CollectorState × Option String) :
    CollectorState × Option String :=
  match r with
  | (st, none) => f st
  | (st, some e) => (st, some e)

/-- Step 1 of async_update: fetch locations only when none are stored yet. -/
def locStep (env : UpdateEnv) (st : CollectorState) : CollectorState × Option String :=
  if st.locations_data = none then
    match env.locations with
    | .error _ => (st, some "JSONDecodeError")
    | .ok r => ({ st with locations_data := assignIfTruthy jTruthy st.locations_data r }, none)
  else (st, none)

/-- Step 2 of async_update: fetch observations; when truthy, assign and
post-process in place. -/
def obsStep (dewFn : ℚ → ℚ → Option ℚ) (env : UpdateEnv) (st : CollectorState) :
    CollectorState × Option String :=
  match env.observations with
  | .error _ => (st, some "JSONDecodeError")
  | .ok none => (st, none)
  | .ok (some v) =>
    if jTruthy v then
      let r := obsProcess dewFn v
      ({ st with observations_data := some r.1 }, r.2)
    else (st, none)

/-- Step 3 of async_update: fetch daily forecasts; when truthy, run the
temperature preservation block against the previous snapshot, assign, then
format. An exception in the preservation block leaves the field unassigned. -/
def dailyStep (mdi : String → Option String) (env : UpdateEnv) (st : CollectorState) :
    CollectorState × Option String :=
  match env.daily with
  | .error _ => (st, some "JSONDecodeError")
  | .ok none => (st, none)
  | .ok (some v) =>
    if jTruthy v then
      match preserveToday st.daily_forecasts_data v with
      | (_, some e) => (st, some e)
      | (m, none) =>
        let r := format_daily_forecast_data mdi (some m)
        ({ st with daily_forecasts_data := r.1 }, r.2)
    else (st, none)

/-- Step 4 of async_update: fetch hourly forecasts; when truthy, assign then
format. -/
def hourlyStep (mdi : String → Option String) (env : UpdateEnv) (st : CollectorState) :
    CollectorState × Option String :=
  match env.hourly with
  | .error _ => (st, some "JSONDecodeError")
  | .ok none => (st, none)
  | .ok (some v) =>
    if jTruthy v then
      let r := format_hourly_forecast_data mdi (some v)
      ({ st with hourly_forecasts_data := r.1 }, r.2)
    else (st, none)

/-- Step 5 of async_update: fetch warnings and store verbatim when truthy. -/
def warnStep (env : UpdateEnv) (st : CollectorState) : CollectorState × Option String :=
  match env.warnings with
  | .error _ => (st, some "JSONDecodeError")
  | .ok r => ({ st with warnings_data := assignIfTruthy jTruthy st.warnings_data r }, none)

/-- The cycle through step 2 (locations then observations). -/
def cycleAfterObs (dewFn : ℚ → ℚ → Option ℚ) (env : UpdateEnv) (st : CollectorState) :
    CollectorState × Option String :=
  stepSeq (locStep env st) (obsStep dewFn env)

/-- The cycle through step 3 (daily forecasts). -/
def cycleAfterDaily (dewFn : ℚ → ℚ → Option ℚ) (mdi : String → Option String)
    (env : UpdateEnv) (st : CollectorState) : CollectorState × Option String :=
  stepSeq (cycleAfterObs dewFn env st) (dailyStep mdi env)

/-- The body of Collector.async_update (inside the top-level try): the five
sequential steps, stopping at the first uncaught exception. -/
def asyncUpdateE (dewFn : ℚ → ℚ → Option ℚ) (mdi : String → Option String)
    (env : UpdateEnv) (st : CollectorState) : CollectorState × Option String :=
  stepSeq (stepSeq (cycleAfterDaily dewFn mdi env st) (hourlyStep mdi env)) (warnStep env)

/-- Collector.async_update: the top-level except swallows any exception; the
visible snapshot is whatever state the cycle had reached. -/
def async_update (dewFn : ℚ → ℚ → Option ℚ) (mdi : String → Option String)
    (env : UpdateEnv) (st : CollectorState) : CollectorState :=
  (asyncUpdateE dewFn mdi env st).1

/-- Python r is None after a .get: the key is absent or holds None. -/
def pyIsNoneGet (r : Option JVal) : Bool := isNullB (r.getD .null)

/-! ### Concrete payloads and environments for witnesses and counterexamples -/

/-- A dew-point function for concrete cycle runs (its value is irrelevant to
the cycle-level properties, which hold for every function). -/
def cDewNone : ℚ → ℚ → Option ℚ := fun _ _ => none

/-- A small icon table for concrete cycle runs. -/
def cMdiMap : String → Option String := fun s =>
  if s = "sunny" then some "mdi:weather-sunny"
  else if s = "clear" then some "mdi:weather-night"
  else none

/-- The initial snapshot: all five fields unset. -/
def cStart : CollectorState := ⟨none, none, none, none, none⟩

/-- A well-formed observations payload (wind and gust null, numeric temp and
humidity). -/
def cGoodObs : JVal := .obj [("data", .obj [
  ("wind", .null), ("gust", .null), ("temp", .num 20), ("humidity", .num 50)])]

/-- A well-formed hourly payload with one entry. -/
def cGoodHourly : JVal := .obj [("data", .arr [.obj [
  ("is_night", .bool false), ("icon_descriptor", .str "sunny"),
  ("rain", .obj [("amount", .obj [("min", .num 0), ("max", .null)])]),
  ("wind", .obj [("speed_kilometre", .num 10)])]])]

/-- A truthy warnings payload. -/
def cGoodWarnings : JVal := .obj [("data", .arr [])]

/-- A malformed daily payload: its data list holds a number, so formatting the
first entry raises TypeError at d["rain"]. -/
def cBadDaily : JVal := .obj [("data", .arr [.num 1])]

/-- Environment in which observations succeed and the daily step's
post-processing raises, while hourly and warnings fetches would succeed. -/
def cEnvDailyBoom : UpdateEnv :=
  ⟨Except.ok none, Except.ok (some cGoodObs), Except.ok (some cBadDaily),
   Except.ok (some cGoodHourly), Except.ok (some cGoodWarnings)⟩

/-- Environment in which the observations fetch raises a decode error. -/
def cEnvObsBoom : UpdateEnv :=
  ⟨Except.ok none, Except.error (), Except.ok (some cGoodHourly),
   Except.ok (some cGoodHourly), Except.ok (some cGoodWarnings)⟩

/-- Environment with failed observation and daily fetches (stale-cache
exhausted to None) but successful hourly and warnings fetches. -/
def cEnvMixed : UpdateEnv :=
  ⟨Except.ok none, Except.ok none, Except.ok none,
   Except.ok (some cGoodHourly), Except.ok (some cGoodWarnings)⟩

/-- A daily entry for the C8 evaluation with both rain bounds present. -/
def c8DailyEntry : JVal := .obj [
  ("rain", .obj [("amount", .obj [("min", .num 2), ("max", .num 8)])]),
  ("uv", .null), ("astronomical", .null),
  ("icon_descriptor", .str "sunny")]

/-- A daily entry for the C8 evaluation with rain_amount_max null. -/
def c8DailyEntryNullMax : JVal := .obj [
  ("rain", .obj [("amount", .obj [("min", .num 2), ("max", .null)])]),
  ("uv", .null), ("astronomical", .null),
  ("icon_descriptor", .str "sunny")]

/-- An hourly entry for the C8 evaluation with both rain bounds present. -/
def c8HourlyEntry : JVal := .obj [
  ("is_night", .bool false), ("icon_descriptor", .str "sunny"),
  ("rain", .obj [("amount", .obj [("min", .num 2), ("max", .num 8)])]),
  ("wind", .null)]

/-- An hourly entry for the C8 evaluation with rain_amount_max null. -/
def c8HourlyEntryNullMax : JVal := .obj [
  ("is_night", .bool false), ("icon_descriptor", .str "sunny"),
  ("rain", .obj [("amount", .obj [("min", .num 2), ("max", .null)])]),
  ("wind", .null)]

/-! ### The Magnus-Tetens dew point over the reals (C5)

The floating-point computation of collector.py lines 236-245 is idealized
over the reals; math.log raises ValueError on a non-positive argument and
float division raises ZeroDivisionError on a zero denominator, both caught
to None by the surrounding except. -/

/-- Magnus-Tetens constant a = 17.27. -/
noncomputable def magnusA : ℝ := 17.27

/-- Magnus-Tetens constant b = 237.7. -/
noncomputable def magnusB : ℝ := 237.7

/-- Python round to the nearest integer, half to even, over the reals. -/
noncomputable def roundHalfEvenR (x : ℝ) : ℤ :=
  if x - Int.floor x < 1 / 2 then Int.floor x
  else if x - Int.floor x > 1 / 2 then Int.floor x + 1
  else if Int.floor x % 2 = 0 then Int.floor x else Int.floor x + 1

/-- Python round(x, 1) over the reals. -/
noncomputable def pyRound1R (x : ℝ) : ℝ := (roundHalfEvenR (10 * x) : ℝ) / 10

/-- The dew-point computation of the observations step: None when either
input is absent; gamma = a*T/(b+T) + log(RH/100), dewPoint = b*gamma/(a-gamma)
rounded to one decimal; the math errors (zero denominator in gamma, log of a
non-positive value, zero denominator in dewPoint) all yield None. -/
noncomputable def dew_point_calc (temp humidity : Option ℝ) : Option ℝ :=
  match temp, humidity with
  | some t, some h =>
    if magnusB + t = 0 then none
    else if h / 100 ≤ 0 then none
    else
      if magnusA - (magnusA * t / (magnusB + t) + Real.log (h / 100)) = 0 then none
      else some (pyRound1R
        ((magnusB * (magnusA * t / (magnusB + t) + Real.log (h / 100)))
          / (magnusA - (magnusA * t / (magnusB + t) + Real.log (h / 100)))))
  | _, _ => none

lemma ghCharAux_fst_lt (lat lon : ℚ) :
    ∀ (ws : List ℕ) (s : GHState) (ch : ℕ), (∀ w ∈ ws, w < 32) → ch < 32 →
      (ghCharAux lat lon ws s ch).1 < 32 := by
  intro ws
  induction ws with
  | nil => intro s ch _ hch; simpa [ghCharAux] using hch
  | cons w ws ih =>
    intro s ch hws hch
    have hw : w < 32 := hws w (by simp)
    have hws' : ∀ u ∈ ws, u < 32 := fun u hu => hws u (by simp [hu])
    simp only [ghCharAux]
    apply ih _ _ hws'
    by_cases hb : (ghStep lat lon s).1 <;> simp [hb]
    · exact Nat.or_lt_two_pow (n := 5) hch hw
    · exact hch

lemma ghCharNum_fst_lt (lat lon : ℚ) (s : GHState) : (ghCharNum lat lon s).1 < 32 := by
  apply ghCharAux_fst_lt
  · decide
  · decide

lemma base32_length : base32.length = 32 := by decide

lemma base32_getD_mem {n : ℕ} (hn : n < 32) : base32.getD n '?' ∈ base32 := by
  have h : n < base32.length := by rw [base32_length]; exact hn
  rw [List.getD_eq_getElem _ _ h]
  exact List.getElem_mem h

lemma ghEncodeLoop_length (lat lon : ℚ) :
    ∀ (n : ℕ) (s : GHState), (ghEncodeLoop lat lon n s).length = n := by
  intro n
  induction n with
  | zero => intro s; simp [ghEncodeLoop]
  | succ n ih => intro s; simp [ghEncodeLoop, ih]

lemma ghEncodeLoop_mem (lat lon : ℚ) :
    ∀ (n : ℕ) (s : GHState) (c : Char), c ∈ ghEncodeLoop lat lon n s → c ∈ base32 := by
  intro n
  induction n with
  | zero => intro s c hc; simp [ghEncodeLoop] at hc
  | succ n ih =>
    intro s c hc
    simp only [ghEncodeLoop, List.mem_cons] at hc
    rcases hc with hc | hc
    · subst hc; exact base32_getD_mem (ghCharNum_fst_lt lat lon s)
    · exact ih _ _ hc

/-- C10: for every latitude, longitude and precision p, geohash_encode
terminates (it is a total function of this embedding) and returns a string of
exactly p characters, each drawn from the base32 alphabet
0123456789bcdefghjkmnpqrstuvwxyz. -/
theorem c10_geohash_encode_length_alphabet (lat lon : ℚ) (p : ℕ) :
    (geohash_encode lat lon p).length = p ∧
      ∀ c ∈ (geohash_encode lat lon p).data, c ∈ base32 := by
  constructor
  · show (ghEncodeLoop lat lon p ghInit).length = p
    exact ghEncodeLoop_length lat lon p ghInit
  · intro c hc
    exact ghEncodeLoop_mem lat lon p ghInit c hc

lemma ghNested_refl (s : GHState) : GHNested s s :=
  ⟨le_refl _, le_refl _, le_refl _, le_refl _⟩

lemma ghNested_trans {u t s : GHState} (h1 : GHNested u t) (h2 : GHNested t s) :
    GHNested u s :=
  ⟨le_trans h2.1 h1.1, le_trans h1.2.1 h2.2.1,
   le_trans h2.2.2.1 h1.2.2.1, le_trans h1.2.2.2 h2.2.2.2⟩

lemma ghStep_wf {s : GHState} (lat lon : ℚ) (h : GHWF s) : GHWF (ghStep lat lon s).2 := by
  obtain ⟨h1, h2⟩ := h
  unfold ghStep GHWF
  split_ifs <;> constructor <;> dsimp <;> linarith

lemma ghStep_nested {s : GHState} (lat lon : ℚ) (h : GHWF s) :
    GHNested (ghStep lat lon s).2 s := by
  obtain ⟨h1, h2⟩ := h
  unfold ghStep GHNested
  split_ifs <;> refine ⟨?_, ?_, ?_, ?_⟩ <;> dsimp <;> linarith

lemma ghCharAux_wf (lat lon : ℚ) :
    ∀ (ws : List ℕ) (s : GHState) (ch : ℕ), GHWF s → GHWF (ghCharAux lat lon ws s ch).2 := by
  intro ws
  induction ws with
  | nil => intro s ch h; simpa [ghCharAux] using h
  | cons w ws ih =>
    intro s ch h
    simp only [ghCharAux]
    exact ih _ _ (ghStep_wf lat lon h)

lemma ghCharAux_nested (lat lon : ℚ) :
    ∀ (ws : List ℕ) (s : GHState) (ch : ℕ), GHWF s →
      GHNested (ghCharAux lat lon ws s ch).2 s := by
  intro ws
  induction ws with
  | nil => intro s ch _; exact ghNested_refl s
  | cons w ws ih =>
    intro s ch h
    simp only [ghCharAux]
    exact ghNested_trans (ih _ _ (ghStep_wf lat lon h)) (ghStep_nested lat lon h)

lemma ghCharNum_wf {s : GHState} (lat lon : ℚ) (h : GHWF s) :
    GHWF (ghCharNum lat lon s).2 :=
  ghCharAux_wf lat lon _ s 0 h

lemma ghCharNum_nested {s : GHState} (lat lon : ℚ) (h : GHWF s) :
    GHNested (ghCharNum lat lon s).2 s :=
  ghCharAux_nested lat lon _ s 0 h

lemma ghStates_wf (lat lon : ℚ) :
    ∀ (n : ℕ) (s : GHState), GHWF s → GHWF (ghStates lat lon n s) := by
  intro n
  induction n with
  | zero => intro s h; simpa [ghStates] using h
  | succ n ih => intro s h; simp only [ghStates]; exact ih _ (ghCharNum_wf lat lon h)

lemma ghStates_nested (lat lon : ℚ) :
    ∀ (n : ℕ) (s : GHState), GHWF s → GHNested (ghStates lat lon n s) s := by
  intro n
  induction n with
  | zero => intro s _; exact ghNested_refl s
  | succ n ih =>
    intro s h
    simp only [ghStates]
    exact ghNested_trans (ih _ (ghCharNum_wf lat lon h)) (ghCharNum_nested lat lon h)

/-- Branch agreement for one bisection step: the center of any well-formed box
nested inside the refined interval takes the same branch as the original
point, hence produces the same bit and the same refined state. -/
lemma ghStep_center_agree (lat lon cLat cLon : ℚ) (s sF : GHState)
    (hwf : GHWF s) (hFwf : GHWF sF)
    (hnest : GHNested sF (ghStep lat lon s).2)
    (hcLat : cLat = (sF.latLo + sF.latHi) / 2)
    (hcLon : cLon = (sF.lonLo + sF.lonHi) / 2) :
    ghStep cLat cLon s = ghStep lat lon s := by
  obtain ⟨hwa, hwo⟩ := hwf
  obtain ⟨hfa, hfo⟩ := hFwf
  by_cases he : s.even
  · by_cases hl : lon > (s.lonLo + s.lonHi) / 2
    · have hstep : ghStep lat lon s =
          (true, { s with lonLo := (s.lonLo + s.lonHi) / 2, even := false }) := by
        unfold ghStep; rw [if_pos he, if_pos hl]
      rw [hstep] at hnest
      unfold GHNested at hnest
      obtain ⟨n1, n2, n3, n4⟩ := hnest
      dsimp at n3
      have hc : cLon > (s.lonLo + s.lonHi) / 2 := by rw [hcLon]; linarith
      rw [hstep]; unfold ghStep; rw [if_pos he, if_pos hc]
    · have hstep : ghStep lat lon s =
          (false, { s with lonHi := (s.lonLo + s.lonHi) / 2, even := false }) := by
        unfold ghStep; rw [if_pos he, if_neg hl]
      rw [hstep] at hnest
      unfold GHNested at hnest
      obtain ⟨n1, n2, n3, n4⟩ := hnest
      dsimp at n4
      have hc : ¬ cLon > (s.lonLo + s.lonHi) / 2 := by
        rw [hcLon]; push_neg; linarith
      rw [hstep]; unfold ghStep; rw [if_pos he, if_neg hc]
  · by_cases hl : lat > (s.latLo + s.latHi) / 2
    · have hstep : ghStep lat lon s =
          (true, { s with latLo := (s.latLo + s.latHi) / 2, even := true }) := by
        unfold ghStep; rw [if_neg he, if_pos hl]
      rw [hstep] at hnest
      unfold GHNested at hnest
      obtain ⟨n1, n2, n3, n4⟩ := hnest
      dsimp at n1
      have hc : cLat > (s.latLo + s.latHi) / 2 := by rw [hcLat]; linarith
      rw [hstep]; unfold ghStep; rw [if_neg he, if_pos hc]
    · have hstep : ghStep lat lon s =
          (false, { s with latHi := (s.latLo + s.latHi) / 2, even := true }) := by
        unfold ghStep; rw [if_neg he, if_neg hl]
      rw [hstep] at hnest
      unfold GHNested at hnest
      obtain ⟨n1, n2, n3, n4⟩ := hnest
      dsimp at n2
      have hc : ¬ cLat > (s.latLo + s.latHi) / 2 := by
        rw [hcLat]; push_neg; linarith
      rw [hstep]; unfold ghStep; rw [if_neg he, if_neg hc]

lemma ghCharAux_center_agree (lat lon cLat cLon : ℚ) (sF : GHState) (hFwf : GHWF sF)
    (hcLat : cLat = (sF.latLo + sF.latHi) / 2)
    (hcLon : cLon = (sF.lonLo + sF.lonHi) / 2) :
    ∀ (ws : List ℕ) (s : GHState) (ch : ℕ), GHWF s →
      GHNested sF (ghCharAux lat lon ws s ch).2 →
      ghCharAux cLat cLon ws s ch = ghCharAux lat lon ws s ch := by
  intro ws
  induction ws with
  | nil => intro s ch _ _; rfl
  | cons w ws ih =>
    intro s ch hwf hnest
    have hwf' : GHWF (ghStep lat lon s).2 := ghStep_wf lat lon hwf
    simp only [ghCharAux] at hnest
    have hnest1 : GHNested sF (ghStep lat lon s).2 :=
      ghNested_trans hnest (ghCharAux_nested lat lon ws _ _ hwf')
    have hstep : ghStep cLat cLon s = ghStep lat lon s :=
      ghStep_center_agree lat lon cLat cLon s sF hwf hFwf hnest1 hcLat hcLon
    simp only [ghCharAux, hstep]
    exact ih _ _ hwf' hnest

lemma ghCharNum_center_agree (lat lon cLat cLon : ℚ) (sF : GHState) (hFwf : GHWF sF)
    (hcLat : cLat = (sF.latLo + sF.latHi) / 2)
    (hcLon : cLon = (sF.lonLo + sF.lonHi) / 2)
    (s : GHState) (hwf : GHWF s) (hnest : GHNested sF (ghCharNum lat lon s).2) :
    ghCharNum cLat cLon s = ghCharNum lat lon s :=
  ghCharAux_center_agree lat lon cLat cLon sF hFwf hcLat hcLon _ s 0 hwf hnest

/-- Re-encoding the center of the final bounding box follows the very same
branch at every step of the encode loop, hence reproduces the same string. -/
lemma ghEncodeLoop_center_agree (lat lon cLat cLon : ℚ) (sF : GHState) (hFwf : GHWF sF)
    (hcLat : cLat = (sF.latLo + sF.latHi) / 2)
    (hcLon : cLon = (sF.lonLo + sF.lonHi) / 2) :
    ∀ (n : ℕ) (s : GHState), GHWF s → GHNested sF (ghStates lat lon n s) →
      ghEncodeLoop cLat cLon n s = ghEncodeLoop lat lon n s := by
  intro n
  induction n with
  | zero => intro s _ _; rfl
  | succ n ih =>
    intro s hwf hnest
    simp only [ghStates] at hnest
    have hwf' : GHWF (ghCharNum lat lon s).2 := ghCharNum_wf lat lon hwf
    have hnest1 : GHNested sF (ghCharNum lat lon s).2 :=
      ghNested_trans hnest (ghStates_nested lat lon n _ hwf')
    have hchar : ghCharNum cLat cLon s = ghCharNum lat lon s :=
      ghCharNum_center_agree lat lon cLat cLon sF hFwf hcLat hcLon s hwf hnest1
    simp only [ghEncodeLoop, hchar]
    exact congrArg _ (ih _ hwf' hnest)

/-- The decode sequel: one decode bit driven by an emitted encode bit performs
exactly the interval refinement of the encode step. -/
lemma ghDecodeBit_replay (lat lon : ℚ) (s : GHState) :
    ghDecodeBit (ghStep lat lon s).1 s = (ghStep lat lon s).2 := by
  by_cases he : s.even
  · by_cases hl : lon > (s.lonLo + s.lonHi) / 2
    · have h : ghStep lat lon s =
          (true, { s with lonLo := (s.lonLo + s.lonHi) / 2, even := false }) := by
        unfold ghStep; rw [if_pos he, if_pos hl]
      rw [h]; simp [ghDecodeBit, he]
    · have h : ghStep lat lon s =
          (false, { s with lonHi := (s.lonLo + s.lonHi) / 2, even := false }) := by
        unfold ghStep; rw [if_pos he, if_neg hl]
      rw [h]; simp [ghDecodeBit, he]
  · by_cases hl : lat > (s.latLo + s.latHi) / 2
    · have h : ghStep lat lon s =
          (true, { s with latLo := (s.latLo + s.latHi) / 2, even := true }) := by
        unfold ghStep; rw [if_neg he, if_pos hl]
      rw [h]; simp [ghDecodeBit, he]
    · have h : ghStep lat lon s =
          (false, { s with latHi := (s.latLo + s.latHi) / 2, even := true }) := by
        unfold ghStep; rw [if_neg he, if_neg hl]
      rw [h]; simp [ghDecodeBit, he]

lemma chAssemble_lt (b0 b1 b2 b3 b4 : Bool) : chAssemble b0 b1 b2 b3 b4 < 32 := by
  rcases b0 <;> rcases b1 <;> rcases b2 <;> rcases b3 <;> rcases b4 <;> decide

lemma chAssemble_bits (b0 b1 b2 b3 b4 : Bool) :
    (chAssemble b0 b1 b2 b3 b4 &&& 16 != 0) = b0 ∧
    (chAssemble b0 b1 b2 b3 b4 &&& 8 != 0) = b1 ∧
    (chAssemble b0 b1 b2 b3 b4 &&& 4 != 0) = b2 ∧
    (chAssemble b0 b1 b2 b3 b4 &&& 2 != 0) = b3 ∧
    (chAssemble b0 b1 b2 b3 b4 &&& 1 != 0) = b4 := by
  rcases b0 <;> rcases b1 <;> rcases b2 <;> rcases b3 <;> rcases b4 <;> decide

lemma base32_indexOf_getD : ∀ n : Fin 32, base32.indexOf (base32.getD n.1 '?') = n.1 := by
  decide

/-- Decoding the character emitted by the encode loop replays exactly the five
interval refinements of the encode loop. -/
lemma ghChar_replay (lat lon : ℚ) (s : GHState) :
    ghDecodeChar (base32.getD (ghCharNum lat lon s).1 '?') s = (ghCharNum lat lon s).2 := by
  rcases h0 : ghStep lat lon s with ⟨b0, s1⟩
  rcases h1 : ghStep lat lon s1 with ⟨b1, s2⟩
  rcases h2 : ghStep lat lon s2 with ⟨b2, s3⟩
  rcases h3 : ghStep lat lon s3 with ⟨b3, s4⟩
  rcases h4 : ghStep lat lon s4 with ⟨b4, s5⟩
  have hch : ghCharNum lat lon s = (chAssemble b0 b1 b2 b3 b4, s5) := by
    simp [ghCharNum, ghCharAux, h0, h1, h2, h3, h4, chAssemble]
  have hd0 : ghDecodeBit b0 s = s1 := by
    have h := ghDecodeBit_replay lat lon s; rw [h0] at h; exact h
  have hd1 : ghDecodeBit b1 s1 = s2 := by
    have h := ghDecodeBit_replay lat lon s1; rw [h1] at h; exact h
  have hd2 : ghDecodeBit b2 s2 = s3 := by
    have h := ghDecodeBit_replay lat lon s2; rw [h2] at h; exact h
  have hd3 : ghDecodeBit b3 s3 = s4 := by
    have h := ghDecodeBit_replay lat lon s3; rw [h3] at h; exact h
  have hd4 : ghDecodeBit b4 s4 = s5 := by
    have h := ghDecodeBit_replay lat lon s4; rw [h4] at h; exact h
  have hidx : base32.indexOf (base32.getD (chAssemble b0 b1 b2 b3 b4) '?')
      = chAssemble b0 b1 b2 b3 b4 :=
    base32_indexOf_getD ⟨_, chAssemble_lt b0 b1 b2 b3 b4⟩
  obtain ⟨e0, e1, e2, e3, e4⟩ := chAssemble_bits b0 b1 b2 b3 b4
  rw [hch]
  simp only [ghDecodeChar, hidx, ghDecodeCharAux, e0, e1, e2, e3, e4, hd0, hd1, hd2, hd3, hd4]

/-- Decoding an encoded string replays the whole bisection trajectory. -/
lemma ghDecodeLoop_replay (lat lon : ℚ) :
    ∀ (n : ℕ) (s : GHState),
      ghDecodeLoop (ghEncodeLoop lat lon n s) s = ghStates lat lon n s := by
  intro n
  induction n with
  | zero => intro s; rfl
  | succ n ih =>
    intro s
    simp only [ghEncodeLoop, ghDecodeLoop, ghChar_replay, ghStates]
    exact ih _

/-- C4: for every latitude in [-90, 90] and longitude in [-180, 180],
decoding the 6-character geohash of the point and re-encoding the decoded
center at precision 6 reproduces the original 6-character string
(grid-cell stability of the geohash round trip). -/
theorem c4_geohash_roundtrip (lat lon : ℚ)
    (h1 : -90 ≤ lat) (h2 : lat ≤ 90) (h3 : -180 ≤ lon) (h4 : lon ≤ 180) :
    geohash_encode (geohash_decode (geohash_encode lat lon 6)).1
      (geohash_decode (geohash_encode lat lon 6)).2 6 = geohash_encode lat lon 6 := by
  have hwf0 : GHWF ghInit := by constructor <;> norm_num [ghInit]
  have hFwf : GHWF (ghStates lat lon 6 ghInit) := ghStates_wf lat lon 6 ghInit hwf0
  have hda : geohash_decode (geohash_encode lat lon 6)
      = (((ghStates lat lon 6 ghInit).latLo + (ghStates lat lon 6 ghInit).latHi) / 2,
         ((ghStates lat lon 6 ghInit).lonLo + (ghStates lat lon 6 ghInit).lonHi) / 2) := by
    show geohash_decode ⟨ghEncodeLoop lat lon 6 ghInit⟩ = _
    unfold geohash_decode
    rw [show (String.mk (ghEncodeLoop lat lon 6 ghInit)).data
        = ghEncodeLoop lat lon 6 ghInit from rfl]
    rw [ghDecodeLoop_replay lat lon 6 ghInit]
  rw [hda]
  show (⟨ghEncodeLoop _ _ 6 ghInit⟩ : String) = ⟨ghEncodeLoop lat lon 6 ghInit⟩
  exact congrArg String.mk
    (ghEncodeLoop_center_agree lat lon _ _ (ghStates lat lon 6 ghInit) hFwf rfl rfl 6 ghInit
      hwf0 (ghNested_refl _))

/-- Witness for C4 at the Sydney coordinates (-33.8688, 151.2093). -/
theorem c4_geohash_roundtrip_witness :
    ((-90 : ℚ) ≤ -338688 / 10000 ∧ (-338688 / 10000 : ℚ) ≤ 90 ∧
      (-180 : ℚ) ≤ 1512093 / 10000 ∧ (1512093 / 10000 : ℚ) ≤ 180) ∧
    geohash_encode
        (geohash_decode (geohash_encode (-338688 / 10000) (1512093 / 10000) 6)).1
        (geohash_decode (geohash_encode (-338688 / 10000) (1512093 / 10000) 6)).2 6
      = geohash_encode (-338688 / 10000) (1512093 / 10000) 6 :=
  ⟨⟨by norm_num, by norm_num, by norm_num, by norm_num⟩,
   c4_geohash_roundtrip (-338688 / 10000) (1512093 / 10000)
     (by norm_num) (by norm_num) (by norm_num) (by norm_num)⟩

/-! ### Properties of the fetch-with-retry loop -/

lemma fetchWithRetry_eq_spec {α : Type} (o : ℕ → FetchOutcome α) (c : CacheEntry α)
    (n : ℕ) : fetchWithRetry o c n = fetchResultSpec o c n := by
  show fetchFrom o c n 0 (2 + 1) = fetchResultSpec o c n
  rcases h0 : o 0 <;> rcases h1 : o 1 <;> rcases h2 : o 2 <;>
    simp [fetchFrom, fetchResultSpec, attempt1Result, attempt2Result, prependSleep,
      MAX_RETRIES, RETRY_DELAY_BASE, h0, h1, h2] <;>
    rcases c.data <;> simp

/-- C9: the cache entry for a key is only ever overwritten, together with its
timestamp, by the payload of a verified 200-plus-successful-JSON-decode
attempt; if no attempt succeeds (failing attempts, non-200 responses, decode
errors), the entry is left unchanged. -/
theorem c9_cache_only_written_on_success {α : Type} (o : ℕ → FetchOutcome α)
    (cache : CacheEntry α) (now : ℕ) :
    ((fetchWithRetry o cache now).2.1 = cache ∨
      ∃ d, (fetchWithRetry o cache now).2.1 = ⟨some d, now⟩ ∧
        (o 0 = FetchOutcome.success d ∨ o 1 = FetchOutcome.success d ∨
          o 2 = FetchOutcome.success d)) ∧
    ((isSuccessOutcome (o 0) = false ∧ isSuccessOutcome (o 1) = false ∧
        isSuccessOutcome (o 2) = false) →
      (fetchWithRetry o cache now).2.1 = cache) := by
  rw [fetchWithRetry_eq_spec]
  rcases h0 : o 0 <;> rcases h1 : o 1 <;> rcases h2 : o 2 <;>
    simp [fetchResultSpec, attempt1Result, attempt2Result, prependSleep,
      isSuccessOutcome, h0, h1, h2]

/-- Witness for C9: a run with no successful attempt leaves the concrete
cache entry untouched. -/
theorem c9_cache_only_written_on_success_witness :
    (isSuccessOutcome (oAllHttpErrors 0) = false ∧
      isSuccessOutcome (oAllHttpErrors 1) = false ∧
      isSuccessOutcome (oAllHttpErrors 2) = false) ∧
    (fetchWithRetry oAllHttpErrors ⟨some 7, 0⟩ 99).2.1 = (⟨some 7, 0⟩ : CacheEntry ℕ) :=
  ⟨⟨rfl, rfl, rfl⟩,
   (c9_cache_only_written_on_success oAllHttpErrors ⟨some 7, 0⟩ 99).2 ⟨rfl, rfl, rfl⟩⟩

/-- C6: a network error or timeout on attempt i requests a sleep of 2 ^ i
seconds except after the final attempt, and non-200 responses fall through
with no wait: the requested sleeps are exactly sleepsSpec. In particular two
consecutive network errors followed by a success on the third attempt return
the successful payload after requesting exactly the sleeps 1s then 2s. -/
theorem c6_retry_backoff {α : Type} (o : ℕ → FetchOutcome α) (cache : CacheEntry α)
    (now : ℕ) :
    (∀ d : α,
      (o 0 = FetchOutcome.netError ∧ o 1 = FetchOutcome.netError ∧
          o 2 = FetchOutcome.success d) →
        fetchWithRetry o cache now = (Except.ok (some d), ⟨some d, now⟩, [1, 2])) ∧
    (fetchWithRetry o cache now).2.2 = sleepsSpec o := by
  rw [fetchWithRetry_eq_spec]
  constructor
  · rintro d ⟨h0, h1, h2⟩
    simp [fetchResultSpec, attempt1Result, attempt2Result, prependSleep, h0, h1, h2]
  · rcases h0 : o 0 <;> rcases h1 : o 1 <;> rcases h2 : o 2 <;>
      simp [fetchResultSpec, attempt1Result, attempt2Result, prependSleep, sleepsSpec,
        MAX_RETRIES, RETRY_DELAY_BASE, isRetryable, isNetError, List.range_succ,
        h0, h1, h2]

/-- Witness for C6: the concrete two-network-errors-then-success environment
returns the fresh payload 42 with sleeps [1, 2]. -/
theorem c6_retry_backoff_witness :
    (oNetNetSuccess 0 = FetchOutcome.netError ∧
      oNetNetSuccess 1 = FetchOutcome.netError ∧
      oNetNetSuccess 2 = FetchOutcome.success 42) ∧
    fetchWithRetry oNetNetSuccess ⟨none, 0⟩ 7 =
      (Except.ok (some 42), ⟨some 42, 7⟩, [1, 2]) :=
  ⟨⟨rfl, rfl, rfl⟩,
   (c6_retry_backoff oNetNetSuccess ⟨none, 0⟩ 7).1 42 ⟨rfl, rfl, rfl⟩⟩

/-- Counterexample to C1 as stated: three consecutive non-200 responses
exhaust all attempts without success, a cached payload (7) exists, yet the
function returns None, not the cached payload. -/
theorem c1_counterexample_http_errors_ignore_cache :
    (⟨some 7, 0⟩ : CacheEntry ℕ).data = some 7 ∧
    (fetchWithRetry oAllHttpErrors ⟨some 7, 0⟩ 99).1 = Except.ok none ∧
    (Except.ok none : Except Unit (Option ℕ)) ≠ Except.ok (some 7) := by
  refine ⟨rfl, rfl, ?_⟩
  simp

/-- C1 as amended: the stale-cache fallback runs only when the final attempt
fails with a network error or timeout — in that case the cached payload is
returned when one exists and None otherwise; when the final attempt is a
non-200 response the function returns None even if a cached payload exists;
and the caller leaves the snapshot field unchanged whenever the fetch
produces no result. -/
theorem c1_amended_stale_cache_fallback {α : Type} (o : ℕ → FetchOutcome α)
    (cache : CacheEntry α) (now : ℕ)
    (h0 : isRetryable (o 0) = true) (h1 : isRetryable (o 1) = true) :
    (o 2 = FetchOutcome.netError →
      (fetchWithRetry o cache now).1 = Except.ok cache.data) ∧
    (o 2 = FetchOutcome.httpError →
      (fetchWithRetry o cache now).1 = Except.ok none) ∧
    (∀ (tr : α → Bool) (old : Option α), assignIfTruthy tr old none = old) := by
  rw [fetchWithRetry_eq_spec]
  refine ⟨?_, ?_, fun tr old => rfl⟩ <;> intro h2 <;>
    rcases ho0 : o 0 <;> rcases ho1 : o 1 <;>
      simp [ho0, ho1, isRetryable] at h0 h1 <;>
      simp [fetchResultSpec, attempt1Result, attempt2Result, prependSleep, ho0, ho1, h2]

/-- C8 is right about the rain-range behavior but the daily joining text in
the code is not the en dash: the source literal was garbled by a double
encoding into the three characters U+00E2, U+20AC, U+201C. Evaluation of both
entry formatters at the claimed inputs: daily min=2/max=8 yields the mojibake
range string (not "2–8"), hourly yields "2 to 8", and a null max is
overwritten with min and the range equals min verbatim in both. -/
theorem c8_rain_range_evaluation :
    (formatDailyEntry cMdiMap 1 c8DailyEntry).1 = JVal.obj [
      ("uv", .null), ("astronomical", .null), ("icon_descriptor", .str "sunny"),
      ("rain_amount_min", .num 2), ("rain_amount_max", .num 8),
      ("mdi_icon", .str "mdi:weather-sunny"),
      ("rain_amount_range", .str ("2" ++ dailyRainJoiner ++ "8"))] ∧
    "2" ++ dailyRainJoiner ++ "8" ≠ "2–8" ∧
    (formatHourlyEntry cMdiMap c8HourlyEntry).1 = JVal.obj [
      ("is_night", .bool false), ("icon_descriptor", .str "sunny"), ("wind", .null),
      ("mdi_icon", .str "mdi:weather-sunny"),
      ("rain_amount_min", .num 2), ("rain_amount_max", .num 8),
      ("rain_amount_range", .str "2 to 8")] ∧
    (formatDailyEntry cMdiMap 1 c8DailyEntryNullMax).1 = JVal.obj [
      ("uv", .null), ("astronomical", .null), ("icon_descriptor", .str "sunny"),
      ("rain_amount_min", .num 2), ("rain_amount_max", .num 2),
      ("mdi_icon", .str "mdi:weather-sunny"),
      ("rain_amount_range", .num 2)] ∧
    (formatHourlyEntry cMdiMap c8HourlyEntryNullMax).1 = JVal.obj [
      ("is_night", .bool false), ("icon_descriptor", .str "sunny"), ("wind", .null),
      ("mdi_icon", .str "mdi:weather-sunny"),
      ("rain_amount_min", .num 2), ("rain_amount_max", .num 2),
      ("rain_amount_range", .num 2)] := by
  refine ⟨by decide, by decide, by decide, by decide, by decide⟩

/-- Counterexample to C2 as stated: in the cEnvDailyBoom cycle the daily
step's post-processing raises TypeError, and although the hourly and warnings
fetches would return truthy payloads (and hourly formatting would succeed),
the later steps are never attempted and their snapshot fields stay unset. -/
theorem c2_counterexample_postprocessing_aborts_later_steps :
    (asyncUpdateE cDewNone cMdiMap cEnvDailyBoom cStart).2 = some "TypeError" ∧
    cEnvDailyBoom.hourly = Except.ok (some cGoodHourly) ∧
    jTruthy cGoodHourly = true ∧
    (format_hourly_forecast_data cMdiMap (some cGoodHourly)).2 = none ∧
    cEnvDailyBoom.warnings = Except.ok (some cGoodWarnings) ∧
    jTruthy cGoodWarnings = true ∧
    (async_update cDewNone cMdiMap cEnvDailyBoom cStart).hourly_forecasts_data = none ∧
    (async_update cDewNone cMdiMap cEnvDailyBoom cStart).warnings_data = none := by
  refine ⟨by decide, rfl, by decide, by decide, rfl, by decide, by decide, by decide⟩

/-- Counterexample to C3 as stated: in the same cycle the exception is caught
(async_update returns), but the cycle is not a no-op — the observations step
had already stored the freshly processed payload before the daily step
raised. -/
theorem c3_counterexample_not_noop_on_exception :
    (asyncUpdateE cDewNone cMdiMap cEnvDailyBoom cStart).2 = some "TypeError" ∧
    cStart.observations_data = none ∧
    (async_update cDewNone cMdiMap cEnvDailyBoom cStart).observations_data ≠ none := by
  refine ⟨by decide, rfl, by decide⟩

lemma locStep_keeps (env : UpdateEnv) (st : CollectorState) :
    ((locStep env st).1).observations_data = st.observations_data ∧
    ((locStep env st).1).daily_forecasts_data = st.daily_forecasts_data ∧
    ((locStep env st).1).hourly_forecasts_data = st.hourly_forecasts_data ∧
    ((locStep env st).1).warnings_data = st.warnings_data := by
  unfold locStep
  split
  · rcases env.locations with e | r <;> simp
  · simp

lemma obsStep_keeps (dewFn : ℚ → ℚ → Option ℚ) (env : UpdateEnv) (st : CollectorState) :
    ((obsStep dewFn env st).1).locations_data = st.locations_data ∧
    ((obsStep dewFn env st).1).daily_forecasts_data = st.daily_forecasts_data ∧
    ((obsStep dewFn env st).1).hourly_forecasts_data = st.hourly_forecasts_data ∧
    ((obsStep dewFn env st).1).warnings_data = st.warnings_data := by
  unfold obsStep
  rcases env.observations with e | r
  · simp
  · rcases r with _ | v
    · simp
    · dsimp only
      split <;> simp

lemma dailyStep_keeps (mdi : String → Option String) (env : UpdateEnv)
    (st : CollectorState) :
    ((dailyStep mdi env st).1).locations_data = st.locations_data ∧
    ((dailyStep mdi env st).1).observations_data = st.observations_data ∧
    ((dailyStep mdi env st).1).hourly_forecasts_data = st.hourly_forecasts_data ∧
    ((dailyStep mdi env st).1).warnings_data = st.warnings_data := by
  unfold dailyStep
  rcases env.daily with e | r
  · simp
  · rcases r with _ | v
    · simp
    · dsimp only
      split
      · rcases hp : preserveToday st.daily_forecasts_data v with ⟨m, e1⟩
        rcases e1 with _ | e1 <;> simp
      · simp

lemma hourlyStep_keeps (mdi : String → Option String) (env : UpdateEnv)
    (st : CollectorState) :
    ((hourlyStep mdi env st).1).locations_data = st.locations_data ∧
    ((hourlyStep mdi env st).1).observations_data = st.observations_data ∧
    ((hourlyStep mdi env st).1).daily_forecasts_data = st.daily_forecasts_data ∧
    ((hourlyStep mdi env st).1).warnings_data = st.warnings_data := by
  unfold hourlyStep
  rcases env.hourly with e | r
  · simp
  · rcases r with _ | v
    · simp
    · dsimp only
      split <;> simp

lemma warnStep_keeps (env : UpdateEnv) (st : CollectorState) :
    ((warnStep env st).1).locations_data = st.locations_data ∧
    ((warnStep env st).1).observations_data = st.observations_data ∧
    ((warnStep env st).1).daily_forecasts_data = st.daily_forecasts_data ∧
    ((warnStep env st).1).hourly_forecasts_data = st.hourly_forecasts_data := by
  unfold warnStep
  rcases env.warnings with e | r <;> simp

lemma obsStep_fetch_none (dewFn : ℚ → ℚ → Option ℚ) (env : UpdateEnv)
    (st : CollectorState) (h : env.observations = Except.ok none) :
    obsStep dewFn env st = (st, none) := by
  unfold obsStep; rw [h]

lemma dailyStep_fetch_none (mdi : String → Option String) (env : UpdateEnv)
    (st : CollectorState) (h : env.daily = Except.ok none) :
    dailyStep mdi env st = (st, none) := by
  unfold dailyStep; rw [h]

lemma hourlyStep_fetch_none (mdi : String → Option String) (env : UpdateEnv)
    (st : CollectorState) (h : env.hourly = Except.ok none) :
    hourlyStep mdi env st = (st, none) := by
  unfold hourlyStep; rw [h]

lemma hourlyStep_fetch_some (mdi : String → Option String) (env : UpdateEnv)
    (st : CollectorState) (v : JVal) (h : env.hourly = Except.ok (some v))
    (ht : jTruthy v = true) :
    hourlyStep mdi env st =
      ({ st with hourly_forecasts_data := (format_hourly_forecast_data mdi (some v)).1 },
        (format_hourly_forecast_data mdi (some v)).2) := by
  unfold hourlyStep; rw [h]; simp [ht]

lemma warnStep_fetch_ok (env : UpdateEnv) (st : CollectorState)
    (r : Option JVal) (h : env.warnings = Except.ok r) :
    warnStep env st =
      ({ st with warnings_data := assignIfTruthy jTruthy st.warnings_data r }, none) := by
  unfold warnStep; rw [h]

/-- When the whole cycle raises no exception, it decomposes into the five
sequential steps, each completing without error. -/
lemma asyncUpdateE_stages (dewFn : ℚ → ℚ → Option ℚ) (mdi : String → Option String)
    (env : UpdateEnv) (st : CollectorState)
    (hok : (asyncUpdateE dewFn mdi env st).2 = none) :
    ∃ s1 s2 s3 s4 s5,
      locStep env st = (s1, none) ∧ obsStep dewFn env s1 = (s2, none) ∧
      dailyStep mdi env s2 = (s3, none) ∧ hourlyStep mdi env s3 = (s4, none) ∧
      warnStep env s4 = (s5, none) ∧ async_update dewFn mdi env st = s5 := by
  rcases h1 : locStep env st with ⟨s1, e1⟩
  rcases h2 : obsStep dewFn env s1 with ⟨s2, e2⟩
  rcases h3 : dailyStep mdi env s2 with ⟨s3, e3⟩
  rcases h4 : hourlyStep mdi env s3 with ⟨s4, e4⟩
  rcases h5 : warnStep env s4 with ⟨s5, e5⟩
  have hA : asyncUpdateE dewFn mdi env st
      = stepSeq (stepSeq (stepSeq (stepSeq (s1, e1) (obsStep dewFn env))
          (dailyStep mdi env)) (hourlyStep mdi env)) (warnStep env) := by
    unfold asyncUpdateE cycleAfterDaily cycleAfterObs
    rw [h1]
  rcases e1 with _ | e1
  case some =>
    rw [show ∀ f, stepSeq (s1, some e1) f = (s1, some e1) from fun _ => rfl,
      show ∀ f, stepSeq (s1, some e1) f = (s1, some e1) from fun _ => rfl,
      show ∀ f, stepSeq (s1, some e1) f = (s1, some e1) from fun _ => rfl,
      show ∀ f, stepSeq (s1, some e1) f = (s1, some e1) from fun _ => rfl] at hA
    rw [hA] at hok
    simp at hok
  rw [show stepSeq (s1, none) (obsStep dewFn env) = obsStep dewFn env s1 from rfl, h2] at hA
  rcases e2 with _ | e2
  case some =>
    rw [show ∀ f, stepSeq (s2, some e2) f = (s2, some e2) from fun _ => rfl,
      show ∀ f, stepSeq (s2, some e2) f = (s2, some e2) from fun _ => rfl,
      show ∀ f, stepSeq (s2, some e2) f = (s2, some e2) from fun _ => rfl] at hA
    rw [hA] at hok
    simp at hok
  rw [show stepSeq (s2, none) (dailyStep mdi env) = dailyStep mdi env s2 from rfl, h3] at hA
  rcases e3 with _ | e3
  case some =>
    rw [show ∀ f, stepSeq (s3, some e3) f = (s3, some e3) from fun _ => rfl,
      show ∀ f, stepSeq (s3, some e3) f = (s3, some e3) from fun _ => rfl] at hA
    rw [hA] at hok
    simp at hok
  rw [show stepSeq (s3, none) (hourlyStep mdi env) = hourlyStep mdi env s3 from rfl, h4] at hA
  rcases e4 with _ | e4
  case some =>
    rw [show ∀ f, stepSeq (s4, some e4) f = (s4, some e4) from fun _ => rfl] at hA
    rw [hA] at hok
    simp at hok
  rw [show stepSeq (s4, none) (warnStep env) = warnStep env s4 from rfl, h5] at hA
  rcases e5 with _ | e5
  case some =>
    rw [hA] at hok
    simp at hok
  exact ⟨s1, s2, s3, s4, s5, rfl, h2, h3, h4, h5, by unfold async_update; rw [hA]⟩

/-- C2 as amended: failures that the cycle handles — a fetch returning no
data after its retries — leave that step's field unchanged and do not abort
the cycle: whenever the cycle completes without an exception, every later
step has run and its field is determined by its own fetch result alone
(post-processing exceptions, by contrast, abort the remaining steps, see the
counterexample). -/
theorem c2_amended_handled_failures_do_not_abort (dewFn : ℚ → ℚ → Option ℚ)
    (mdi : String → Option String) (env : UpdateEnv) (st : CollectorState)
    (hok : (asyncUpdateE dewFn mdi env st).2 = none) :
    (env.observations = Except.ok none →
      (async_update dewFn mdi env st).observations_data = st.observations_data) ∧
    (env.daily = Except.ok none →
      (async_update dewFn mdi env st).daily_forecasts_data = st.daily_forecasts_data) ∧
    (∀ v, env.hourly = Except.ok (some v) → jTruthy v = true →
      (async_update dewFn mdi env st).hourly_forecasts_data
        = (format_hourly_forecast_data mdi (some v)).1) ∧
    (env.hourly = Except.ok none →
      (async_update dewFn mdi env st).hourly_forecasts_data = st.hourly_forecasts_data) ∧
    (∀ r, env.warnings = Except.ok r →
      (async_update dewFn mdi env st).warnings_data
        = assignIfTruthy jTruthy st.warnings_data r) := by
  obtain ⟨s1, s2, s3, s4, s5, h1, h2, h3, h4, h5, hres⟩ :=
    asyncUpdateE_stages dewFn mdi env st hok
  have k1 := locStep_keeps env st
  have k2 := obsStep_keeps dewFn env s1
  have k3 := dailyStep_keeps mdi env s2
  have k4 := hourlyStep_keeps mdi env s3
  have k5 := warnStep_keeps env s4
  rw [h1] at k1
  rw [h2] at k2
  rw [h3] at k3
  rw [h4] at k4
  rw [h5] at k5
  dsimp at k1 k2 k3 k4 k5
  refine ⟨?_, ?_, ?_, ?_, ?_⟩
  · intro h
    have := obsStep_fetch_none dewFn env s1 h
    rw [this] at h2
    have hs : s2 = s1 := by injection h2 with hf hs; exact hf.symm
    rw [hres, k5.2.1, k4.2.1, k3.2.1, hs, k1.1]
  · intro h
    have := dailyStep_fetch_none mdi env s2 h
    rw [this] at h3
    have hs : s3 = s2 := by injection h3 with hf hs; exact hf.symm
    rw [hres, k5.2.2.1, k4.2.2.1, hs, k2.2.1, k1.2.1]
  · intro v hv ht
    have := hourlyStep_fetch_some mdi env s3 v hv ht
    rw [this] at h4
    have hs : s4 = { s3 with hourly_forecasts_data :=
        (format_hourly_forecast_data mdi (some v)).1 } := by
      injection h4 with hf hs; exact hf.symm
    rw [hres, k5.2.2.2, hs]
  · intro h
    have := hourlyStep_fetch_none mdi env s3 h
    rw [this] at h4
    have hs : s4 = s3 := by injection h4 with hf hs; exact hf.symm
    rw [hres, k5.2.2.2, hs, k3.2.2.1, k2.2.2.1, k1.2.2.1]
  · intro r hr
    have := warnStep_fetch_ok env s4 r hr
    rw [this] at h5
    have hs : s5 = { s4 with warnings_data :=
        (assignIfTruthy jTruthy s4.warnings_data r) } := by
      injection h5 with hf hs; exact hf.symm
    rw [hres, hs]
    dsimp
    rw [k4.2.2.2, k3.2.2.2, k2.2.2.2, k1.2.2.2]

/-- Witness for C2 as amended: in the cEnvMixed cycle the observation and
daily fetches fail (None after retries) yet the hourly and warnings steps
still run and update their fields. -/
theorem c2_amended_handled_failures_do_not_abort_witness :
    (asyncUpdateE cDewNone cMdiMap cEnvMixed cStart).2 = none ∧
    (async_update cDewNone cMdiMap cEnvMixed cStart).observations_data
      = cStart.observations_data ∧
    (async_update cDewNone cMdiMap cEnvMixed cStart).daily_forecasts_data
      = cStart.daily_forecasts_data ∧
    (async_update cDewNone cMdiMap cEnvMixed cStart).hourly_forecasts_data
      = (format_hourly_forecast_data cMdiMap (some cGoodHourly)).1 ∧
    (async_update cDewNone cMdiMap cEnvMixed cStart).warnings_data
      = assignIfTruthy jTruthy cStart.warnings_data (some cGoodWarnings) :=
  ⟨by decide,
   (c2_amended_handled_failures_do_not_abort cDewNone cMdiMap cEnvMixed cStart
     (by decide)).1 rfl,
   (c2_amended_handled_failures_do_not_abort cDewNone cMdiMap cEnvMixed cStart
     (by decide)).2.1 rfl,
   (c2_amended_handled_failures_do_not_abort cDewNone cMdiMap cEnvMixed cStart
     (by decide)).2.2.1 cGoodHourly rfl (by decide),
   (c2_amended_handled_failures_do_not_abort cDewNone cMdiMap cEnvMixed cStart
     (by decide)).2.2.2.2 (some cGoodWarnings) rfl⟩

/-- C3 as amended: async_update never raises — the caller always receives the
state the cycle had reached when an exception was caught — but the cycle is a
no-op only from the failing step onward: an exception while the observations
step runs (or earlier) leaves the daily, hourly and warnings fields at their
previous values (fields already updated keep their new values, see the
counterexample). -/
theorem c3_amended_exception_caught_not_noop (dewFn : ℚ → ℚ → Option ℚ)
    (mdi : String → Option String) (env : UpdateEnv) (st : CollectorState) :
    async_update dewFn mdi env st = (asyncUpdateE dewFn mdi env st).1 ∧
    (∀ e, (cycleAfterObs dewFn env st).2 = some e →
      (async_update dewFn mdi env st).daily_forecasts_data = st.daily_forecasts_data ∧
      (async_update dewFn mdi env st).hourly_forecasts_data = st.hourly_forecasts_data ∧
      (async_update dewFn mdi env st).warnings_data = st.warnings_data) := by
  refine ⟨rfl, ?_⟩
  intro e he
  have hs : asyncUpdateE dewFn mdi env st = ((cycleAfterObs dewFn env st).1, some e) := by
    unfold asyncUpdateE cycleAfterDaily
    rcases hc : cycleAfterObs dewFn env st with ⟨s, e1⟩
    rw [hc] at he
    simp at he
    rw [he]
    rfl
  have hres : async_update dewFn mdi env st = (cycleAfterObs dewFn env st).1 := by
    unfold async_update
    rw [hs]
  rw [hres]
  unfold cycleAfterObs
  rcases h1 : locStep env st with ⟨s1, e1⟩
  have k1 := locStep_keeps env st
  rw [h1] at k1
  dsimp at k1
  rcases e1 with _ | e1
  · rw [stepSeq]
    have k2 := obsStep_keeps dewFn env s1
    exact ⟨by rw [k2.2.1, k1.2.1], by rw [k2.2.2.1, k1.2.2.1], by rw [k2.2.2.2, k1.2.2.2]⟩
  · rw [stepSeq]
    exact ⟨k1.2.1, k1.2.2.1, k1.2.2.2⟩

/-- Witness for C3 as amended: a decode exception in the observations fetch
leaves the daily, hourly and warnings fields unchanged. -/
theorem c3_amended_exception_caught_not_noop_witness :
    (cycleAfterObs cDewNone cEnvObsBoom cStart).2 = some "JSONDecodeError" ∧
    (async_update cDewNone cMdiMap cEnvObsBoom cStart).daily_forecasts_data
      = cStart.daily_forecasts_data ∧
    (async_update cDewNone cMdiMap cEnvObsBoom cStart).hourly_forecasts_data
      = cStart.hourly_forecasts_data ∧
    (async_update cDewNone cMdiMap cEnvObsBoom cStart).warnings_data
      = cStart.warnings_data :=
  ⟨by decide,
   ((c3_amended_exception_caught_not_noop cDewNone cMdiMap cEnvObsBoom cStart).2
     "JSONDecodeError" (by decide)).1,
   ((c3_amended_exception_caught_not_noop cDewNone cMdiMap cEnvObsBoom cStart).2
     "JSONDecodeError" (by decide)).2.1,
   ((c3_amended_exception_caught_not_noop cDewNone cMdiMap cEnvObsBoom cStart).2
     "JSONDecodeError" (by decide)).2.2⟩

lemma lookup_objSet_self (fs : List (String × JVal)) (k : String) (v : JVal) :
    (objSet fs k v).lookup k = some v := by
  induction fs with
  | nil => simp [objSet, List.lookup_cons]
  | cons p fs ih =>
    rcases p with ⟨k', v'⟩
    by_cases h : k' = k
    · subst h
      simp [objSet, List.lookup_cons]
    · simp [objSet, h, List.lookup_cons, beq_false_of_ne (Ne.symm h), ih]

lemma lookup_objSet_ne (fs : List (String × JVal)) (k k' : String) (v : JVal)
    (h : k' ≠ k) : (objSet fs k v).lookup k' = fs.lookup k' := by
  induction fs with
  | nil => simp [objSet, List.lookup_cons, beq_false_of_ne h]
  | cons p fs ih =>
    rcases p with ⟨k'', v''⟩
    by_cases h2 : k'' = k
    · subst h2
      simp [objSet, List.lookup_cons, beq_false_of_ne h]
    · simp [objSet, h2, List.lookup_cons, ih]

lemma lookup_ne_nil {fs : List (String × JVal)} {k : String} {v : JVal}
    (h : fs.lookup k = some v) : fs ≠ [] := by
  rintro rfl
  simp at h

lemma preserveField_obj (f : String) (o0fs n0fs : List (String × JVal)) :
    preserveField f (.obj o0fs) (.obj n0fs)
      = Except.ok (if pyIsNoneGet (n0fs.lookup f) && !pyIsNoneGet (o0fs.lookup f)
          then .obj (objSet n0fs f ((o0fs.lookup f).getD .null))
          else .obj n0fs) := by
  have e1 : preserveField f (.obj o0fs) (.obj n0fs)
      = (if isNullB ((n0fs.lookup f).getD .null) then
          (if !isNullB ((o0fs.lookup f).getD .null) then
            match jvIndexStr (.obj o0fs) f with
            | .error e => Except.error e
            | .ok ovv => Except.ok (jvSet (.obj n0fs) f ovv)
          else Except.ok (.obj n0fs))
        else Except.ok (.obj n0fs)) := rfl
  rw [e1]
  have isNullB_null : isNullB .null = true := rfl
  rcases hn : n0fs.lookup f with _ | nv <;> rcases ho : o0fs.lookup f with _ | ov
  · simp [pyIsNoneGet, isNullB_null]
  · simp only [pyIsNoneGet, Option.getD_none, Option.getD_some]
    by_cases hov : isNullB ov
    · simp [hov, isNullB_null]
    · simp [hov, isNullB_null, jvIndexStr, ho, jvSet]
  · simp only [pyIsNoneGet, Option.getD_none, Option.getD_some]
    by_cases hnv : isNullB nv
    · simp [hnv, isNullB_null]
    · simp [hnv]
  · simp only [pyIsNoneGet, Option.getD_some]
    by_cases hnv : isNullB nv
    · by_cases hov : isNullB ov
      · simp [hnv, hov]
      · simp [hnv, hov, jvIndexStr, ho, jvSet]
    · simp [hnv]

/-- C7: when both the previous snapshot and the freshly fetched daily payload
have at least one day-entry, the merge replaces the new day-0 temp_min
(likewise temp_max) by the previous day-0 value exactly when the new value is
null (or absent) and the old one is non-null; a non-null new value wins; every
other field of day 0, every other entry, and every other top-level field come
from the new payload; and no exception is raised. -/
theorem c7_today_temp_preservation
    (oldFields newFields o0fs n0fs : List (String × JVal))
    (orest nrest : List JVal)
    (hod : oldFields.lookup "data" = some (.arr (.obj o0fs :: orest)))
    (hnd : newFields.lookup "data" = some (.arr (.obj n0fs :: nrest))) :
    ∃ m0 : List (String × JVal),
      preserveToday (some (.obj oldFields)) (.obj newFields)
        = (.obj (objSet newFields "data" (.arr (.obj m0 :: nrest))), none) ∧
      m0.lookup "temp_min"
        = (if (pyIsNoneGet (n0fs.lookup "temp_min")
              && !pyIsNoneGet (o0fs.lookup "temp_min")) = true
           then o0fs.lookup "temp_min" else n0fs.lookup "temp_min") ∧
      m0.lookup "temp_max"
        = (if (pyIsNoneGet (n0fs.lookup "temp_max")
              && !pyIsNoneGet (o0fs.lookup "temp_max")) = true
           then o0fs.lookup "temp_max" else n0fs.lookup "temp_max") ∧
      ∀ k, k ≠ "temp_min" → k ≠ "temp_max" → m0.lookup k = n0fs.lookup k := by
  have hone : oldFields ≠ [] := lookup_ne_nil hod
  have hntwo : newFields ≠ [] := lookup_ne_nil hnd
  set cmin := pyIsNoneGet (n0fs.lookup "temp_min") && !pyIsNoneGet (o0fs.lookup "temp_min")
    with hcmin
  set cmax := pyIsNoneGet (n0fs.lookup "temp_max") && !pyIsNoneGet (o0fs.lookup "temp_max")
    with hcmax
  set m1 := if cmin then objSet n0fs "temp_min" ((o0fs.lookup "temp_min").getD .null)
    else n0fs with hm1
  have hm1max : m1.lookup "temp_max" = n0fs.lookup "temp_max" := by
    rw [hm1]
    split
    · exact lookup_objSet_ne _ _ _ _ (by decide)
    · rfl
  set m0 := if cmax then objSet m1 "temp_max" ((o0fs.lookup "temp_max").getD .null)
    else m1 with hm0
  refine ⟨m0, ?_, ?_, ?_, ?_⟩
  · have hp1 : preserveField "temp_min" (.obj o0fs) (.obj n0fs) = Except.ok (.obj m1) := by
      rw [preserveField_obj, hm1, ← hcmin]
      split <;> rfl
    have hp2 : preserveField "temp_max" (.obj o0fs) (.obj m1) = Except.ok (.obj m0) := by
      rw [preserveField_obj, hm0, hm1max, ← hcmax]
      split <;> rfl
    have hto : jTruthy (JVal.obj oldFields) = true := by
      simp [jTruthy, List.isEmpty_iff, hone]
    have hco : pyContains "data" (JVal.obj oldFields) = Except.ok true := by
      simp [pyContains, hod]
    have hio : jvIndexStr (JVal.obj oldFields) "data"
        = Except.ok (.arr (.obj o0fs :: orest)) := by
      simp [jvIndexStr, hod]
    have hcn : pyContains "data" (JVal.obj newFields) = Except.ok true := by
      simp [pyContains, hnd]
    have hin : jvIndexStr (JVal.obj newFields) "data"
        = Except.ok (.arr (.obj n0fs :: nrest)) := by
      simp [jvIndexStr, hnd]
    simp only [preserveToday, hto, hco, hio, hcn, hin, pyLen, jvIndexNat, hp1, hp2,
      Bool.not_true, List.length_cons, List.get?]
    simp [jvSet, jvSetIdx]
  · rw [hm0]
    split
    · rw [lookup_objSet_ne _ _ _ _ (by decide), hm1]
      split
      case isTrue h =>
        rw [lookup_objSet_self]
        rw [hcmin] at h
        simp only [Bool.and_eq_true, Bool.not_eq_true] at h
        rcases ho : o0fs.lookup "temp_min" with _ | ov
        · rw [ho] at h
          simp [pyIsNoneGet, isNullB] at h
        · simp [ho]
      case isFalse h => rfl
    · rw [hm1]
      split
      case isTrue h =>
        rw [lookup_objSet_self]
        rw [hcmin] at h
        simp only [Bool.and_eq_true, Bool.not_eq_true] at h
        rcases ho : o0fs.lookup "temp_min" with _ | ov
        · rw [ho] at h
          simp [pyIsNoneGet, isNullB] at h
        · simp [ho]
      case isFalse h => rfl
  · rw [hm0]
    split
    case isTrue h =>
      rw [lookup_objSet_self]
      rw [hcmax] at h
      simp only [Bool.and_eq_true, Bool.not_eq_true] at h
      rcases ho : o0fs.lookup "temp_max" with _ | ov
      · rw [ho] at h
        simp [pyIsNoneGet, isNullB] at h
      · simp [ho]
    case isFalse h => rw [hm1max]
  · intro k hk1 hk2
    rw [hm0]
    have step2 : m1.lookup k = n0fs.lookup k := by
      rw [hm1]
      split
      · exact lookup_objSet_ne _ _ _ _ hk1
      · rfl
    split
    · rw [lookup_objSet_ne _ _ _ _ hk2, step2]
    · exact step2

/-- Witness for C7 at the spec instance: previous day-0 temp_min 12.3, new
day-0 temp_min null. -/
theorem c7_today_temp_preservation_witness :
    ∃ m0 : List (String × JVal),
      preserveToday
          (some (.obj [("data", .arr [.obj [("temp_min", .num (123 / 10)),
            ("temp_max", .num 20)]])]))
          (.obj [("data", .arr [.obj [("temp_min", .null), ("temp_max", .num 21)]]),
            ("metadata", .str "m")])
        = (.obj (objSet [("data", .arr [.obj [("temp_min", .null), ("temp_max", .num 21)]]),
            ("metadata", .str "m")] "data" (.arr [.obj m0])), none) ∧
      m0.lookup "temp_min"
        = (if (pyIsNoneGet (([(("temp_min" : String), JVal.null),
              ("temp_max", JVal.num 21)]).lookup "temp_min")
            && !pyIsNoneGet (([(("temp_min" : String), JVal.num (123 / 10)),
              ("temp_max", JVal.num 20)]).lookup "temp_min")) = true
           then ([(("temp_min" : String), JVal.num (123 / 10)),
              ("temp_max", JVal.num 20)]).lookup "temp_min"
           else ([(("temp_min" : String), JVal.null),
              ("temp_max", JVal.num 21)]).lookup "temp_min") ∧
      m0.lookup "temp_max"
        = (if (pyIsNoneGet (([(("temp_min" : String), JVal.null),
              ("temp_max", JVal.num 21)]).lookup "temp_max")
            && !pyIsNoneGet (([(("temp_min" : String), JVal.num (123 / 10)),
              ("temp_max", JVal.num 20)]).lookup "temp_max")) = true
           then ([(("temp_min" : String), JVal.num (123 / 10)),
              ("temp_max", JVal.num 20)]).lookup "temp_max"
           else ([(("temp_min" : String), JVal.null),
              ("temp_max", JVal.num 21)]).lookup "temp_max") ∧
      ∀ k, k ≠ "temp_min" → k ≠ "temp_max" →
        m0.lookup k = ([(("temp_min" : String), JVal.null),
          ("temp_max", JVal.num 21)]).lookup k :=
  c7_today_temp_preservation
    [("data", .arr [.obj [("temp_min", .num (123 / 10)), ("temp_max", .num 20)]])]
    [("data", .arr [.obj [("temp_min", .null), ("temp_max", .num 21)]]),
      ("metadata", .str "m")]
    [("temp_min", .num (123 / 10)), ("temp_max", .num 20)]
    [("temp_min", .null), ("temp_max", .num 21)]
    [] [] rfl rfl

/-- C5: the dew point stored by the observations step is the Magnus-Tetens
value with a = 17.27, b = 237.7, gamma = a*T/(b+T) + ln(RH/100),
dewPoint = b*gamma/(a-gamma), rounded to one decimal, whenever both inputs
are present and the computation hits no math error; a missing input yields
None, and so does each math-error case (non-positive log argument as with
humidity 0, or a vanishing denominator), with no exception propagating. -/
theorem c5_dew_point_magnus (t h : ℝ) :
    (dew_point_calc none (some h) = none ∧ dew_point_calc (some t) none = none ∧
      dew_point_calc none none = none) ∧
    (h ≤ 0 → dew_point_calc (some t) (some h) = none) ∧
    (magnusB + t ≠ 0 → 0 < h / 100 →
      magnusA - (magnusA * t / (magnusB + t) + Real.log (h / 100)) ≠ 0 →
      dew_point_calc (some t) (some h)
        = some (pyRound1R
            ((magnusB * (magnusA * t / (magnusB + t) + Real.log (h / 100)))
              / (magnusA - (magnusA * t / (magnusB + t) + Real.log (h / 100)))))) := by
  refine ⟨⟨rfl, rfl, rfl⟩, ?_, ?_⟩
  · intro hh
    show (if magnusB + t = 0 then none
      else if h / 100 ≤ 0 then none
      else if magnusA - (magnusA * t / (magnusB + t) + Real.log (h / 100)) = 0 then none
      else some (pyRound1R
        ((magnusB * (magnusA * t / (magnusB + t) + Real.log (h / 100)))
          / (magnusA - (magnusA * t / (magnusB + t) + Real.log (h / 100)))))) = none
    by_cases hb : magnusB + t = 0
    · rw [if_pos hb]
    · rw [if_neg hb, if_pos (div_nonpos_iff.mpr (Or.inr ⟨hh, by norm_num⟩))]
  · intro hb hpos hne
    show (if magnusB + t = 0 then none
      else if h / 100 ≤ 0 then none
      else if magnusA - (magnusA * t / (magnusB + t) + Real.log (h / 100)) = 0 then none
      else some (pyRound1R
        ((magnusB * (magnusA * t / (magnusB + t) + Real.log (h / 100)))
          / (magnusA - (magnusA * t / (magnusB + t) + Real.log (h / 100)))))) = _
    rw [if_neg hb, if_neg (not_le.mpr hpos), if_neg hne]

/-- Witness for C5 at temp 20.0, humidity 50: the hypotheses hold, the stored
value is the rounded Magnus-Tetens formula and equals exactly 9.3, and
humidity 0 yields None without raising. -/
theorem c5_dew_point_magnus_witness :
    (magnusB + (20 : ℝ) ≠ 0 ∧ (0 : ℝ) < 50 / 100 ∧
      magnusA - (magnusA * 20 / (magnusB + 20) + Real.log ((50 : ℝ) / 100)) ≠ 0) ∧
    dew_point_calc (some 20) (some 50)
      = some (pyRound1R
          ((magnusB * (magnusA * 20 / (magnusB + 20) + Real.log ((50 : ℝ) / 100)))
            / (magnusA - (magnusA * 20 / (magnusB + 20) + Real.log ((50 : ℝ) / 100))))) ∧
    dew_point_calc (some 20) (some 50) = some (9.3 : ℝ) ∧
    dew_point_calc (some 20) (some (0 : ℝ)) = none := by
  have hlog_eq : Real.log ((50 : ℝ) / 100) = -Real.log 2 := by
    rw [show ((50 : ℝ) / 100) = ((2 : ℝ))⁻¹ by norm_num, Real.log_inv]
  have hl1 := Real.log_two_gt_d9
  have hl2 := Real.log_two_lt_d9
  have hb : magnusB + (20 : ℝ) ≠ 0 := by unfold magnusB; norm_num
  have hpos : (0 : ℝ) < 50 / 100 := by norm_num
  have hfrac : magnusA * 20 / (magnusB + 20) = (3454 / 2577 : ℝ) := by
    unfold magnusA magnusB; norm_num
  have hgamma_eq : magnusA * 20 / (magnusB + 20) + Real.log ((50 : ℝ) / 100)
      = 3454 / 2577 - Real.log 2 := by
    rw [hlog_eq, hfrac]; ring
  have hG_lo : (0.6471 : ℝ) < 3454 / 2577 - Real.log 2 := by linarith
  have hG_hi : (3454 / 2577 : ℝ) - Real.log 2 < 0.6472 := by linarith
  have hden : (0 : ℝ) < 17.27 - (3454 / 2577 - Real.log 2) := by linarith
  have hne : magnusA - (magnusA * 20 / (magnusB + 20) + Real.log ((50 : ℝ) / 100)) ≠ 0 := by
    rw [hgamma_eq]
    unfold magnusA
    exact ne_of_gt hden
  have hformula := (c5_dew_point_magnus 20 50).2.2 hb hpos hne
  have hD_eq : (magnusB * (magnusA * 20 / (magnusB + 20) + Real.log ((50 : ℝ) / 100)))
      / (magnusA - (magnusA * 20 / (magnusB + 20) + Real.log ((50 : ℝ) / 100)))
      = (237.7 * (3454 / 2577 - Real.log 2)) / (17.27 - (3454 / 2577 - Real.log 2)) := by
    rw [hgamma_eq]; unfold magnusA magnusB; norm_num
  have h10 : 10 * ((237.7 * (3454 / 2577 - Real.log 2))
      / (17.27 - (3454 / 2577 - Real.log 2)))
      = (2377 * (3454 / 2577 - Real.log 2)) / (17.27 - (3454 / 2577 - Real.log 2)) := by
    ring
  have hlo : (92.5 : ℝ) < 10 * ((237.7 * (3454 / 2577 - Real.log 2))
      / (17.27 - (3454 / 2577 - Real.log 2))) := by
    rw [h10, lt_div_iff hden]
    nlinarith [hG_lo]
  have hhi : 10 * ((237.7 * (3454 / 2577 - Real.log 2))
      / (17.27 - (3454 / 2577 - Real.log 2))) < 93 := by
    rw [h10, div_lt_iff hden]
    nlinarith [hG_hi]
  have hfl : Int.floor (10 * ((237.7 * (3454 / 2577 - Real.log 2))
      / (17.27 - (3454 / 2577 - Real.log 2)))) = 92 := by
    rw [Int.floor_eq_iff]
    constructor
    · push_cast; linarith
    · push_cast; linarith
  have hround : roundHalfEvenR (10 * ((237.7 * (3454 / 2577 - Real.log 2))
      / (17.27 - (3454 / 2577 - Real.log 2)))) = 93 := by
    unfold roundHalfEvenR
    rw [hfl]
    have hc1 : ¬ (10 * ((237.7 * (3454 / 2577 - Real.log 2))
        / (17.27 - (3454 / 2577 - Real.log 2))) - ((92 : ℤ) : ℝ) < 1 / 2) := by
      push_cast; linarith
    have hc2 : 10 * ((237.7 * (3454 / 2577 - Real.log 2))
        / (17.27 - (3454 / 2577 - Real.log 2))) - ((92 : ℤ) : ℝ) > 1 / 2 := by
      push_cast; linarith
    rw [if_neg hc1, if_pos hc2]
    norm_num
  have hPy : pyRound1R ((237.7 * (3454 / 2577 - Real.log 2))
      / (17.27 - (3454 / 2577 - Real.log 2))) = (9.3 : ℝ) := by
    unfold pyRound1R
    rw [hround]
    norm_num
  refine ⟨⟨hb, hpos, hne⟩, hformula, ?_, ?_⟩
  · rw [hformula, hD_eq, hPy]
  · exact (c5_dew_point_magnus 20 0).2.1 (le_refl 0)

/-- Witness for C1 as amended: with two non-200 attempts and a final network
error, the cached payload 7 is returned. -/
theorem c1_amended_stale_cache_fallback_witness :
    (isRetryable (oHttpHttpNet 0) = true ∧ isRetryable (oHttpHttpNet 1) = true ∧
      oHttpHttpNet 2 = FetchOutcome.netError) ∧
    (fetchWithRetry oHttpHttpNet ⟨some 7, 0⟩ 99).1 = Except.ok (some 7) :=
  ⟨⟨rfl, rfl, rfl⟩,
   (c1_amended_stale_cache_fallback oHttpHttpNet ⟨some 7, 0⟩ 99 rfl rfl).1 rfl⟩

end BomAu
